import Mathlib

/-!
# ouzel: the render command pipeline

A shallow embedding of `ouzel/graphics/Renderer.cpp` (the facade that turns
drawing calls into commands and hands finished command buffers to the render
device), followed by theorems about it. Further sections embed the hat switch
and axis handling of the gamepad devices, `utils/Log.hpp`,
`localization/Language.cpp` and the mouse moves of `input/Mouse.cpp`.

Conventions of the embedding.

* `uintptr_t` and `uint32_t` values are natural numbers; the facade never does
  arithmetic on them, it only tests them against zero and copies them.
* A `float` is carried as its 32-bit IEEE-754 pattern (`F32`); the facade only
  stores and copies floats.
* `std::queue<std::unique_ptr<Command>>` is a list, oldest command first;
  `push` appends at the tail.
* A member function `void Renderer::f(args)` is a function
  `Renderer → Renderer`; `draw`, which can throw, also returns whether it threw.
* The render device is outside the facade. It is represented by the record of
  what the facade handed to it: the command buffers passed to
  `submitCommandBuffer` and the tasks passed to `executeOnRenderThread`.
-/

namespace Ouzel

/-! ## Value types used by the commands -/

/-- A `float`, as its 32-bit IEEE-754 pattern. -/
structure F32 where
  bits : Nat
deriving DecidableEq, Repr

/-- The float literal `1.0` (sign 0, exponent 127, mantissa 0). -/
def F32.one : F32 := ⟨0x3F800000⟩

/-- `ouzel::Color` (math/Color.hpp): four 8-bit channels. -/
structure Color where
  r : Nat
  g : Nat
  b : Nat
  a : Nat
deriving DecidableEq, Repr

/-- `ouzel::Size2` (math/Size2.hpp). -/
structure Size2 where
  width : F32
  height : F32
deriving DecidableEq, Repr

/-- `ouzel::Rect` (math/Rect.hpp): a position and a size. -/
structure Rect where
  x : F32
  y : F32
  width : F32
  height : F32
deriving DecidableEq, Repr

/-- `Renderer::DrawMode` (Renderer.hpp). -/
inductive DrawMode where
  | POINT_LIST
  | LINE_LIST
  | LINE_STRIP
  | TRIANGLE_LIST
  | TRIANGLE_STRIP
deriving DecidableEq, Repr

/-- `Renderer::CullMode` (Renderer.hpp). -/
inductive CullMode where
  | NONE
  | FRONT
  | BACK
deriving DecidableEq, Repr

/-- `Renderer::FillMode` (Renderer.hpp). -/
inductive FillMode where
  | SOLID
  | WIREFRAME
deriving DecidableEq, Repr

/-! ## Commands and command buffers -/

/-- The command objects built in Renderer.cpp, one constructor per command
class, with the constructor arguments in the order of the `new ...Command(...)`
expressions of Renderer.cpp. (`SetCullModeCommad` and `SetFillModeCommad` are
spelled so in the source.) -/
inductive Command where
  | SetRenderTargetParametersCommand (renderTarget : Nat) (clearColorBuffer : Bool)
      (clearDepthBuffer : Bool) (clearColor : Color) (clearDepth : F32)
  | SetRenderTargetCommand (renderTarget : Nat)
  | ClearRenderTargetCommand (renderTarget : Nat)
  | SetCullModeCommad (cullMode : CullMode)
  | SetFillModeCommad (fillMode : FillMode)
  | SetScissorTestCommand (enabled : Bool) (rectangle : Rect)
  | SetViewportCommand (viewport : Rect)
  | SetDepthStencilStateCommand (depthStencilState : Nat)
  | SetPipelineStateCommand (blendState : Nat) (shader : Nat)
  | DrawCommand (indexBuffer : Nat) (indexCount : Nat) (indexSize : Nat)
      (vertexBuffer : Nat) (drawMode : DrawMode) (startIndex : Nat)
  | PushDebugMarkerCommand (name : String)
  | PopDebugMarkerCommand
  | SetShaderConstantsCommand (fragmentShaderConstants : List (List F32))
      (vertexShaderConstants : List (List F32))
  | SetTexturesCommand (textures : List Nat)
  | PresentCommand
deriving DecidableEq, Repr

/-- `CommandBuffer`: the queue `commands`, oldest command first. -/
structure CommandBuffer where
  commands : List Command := []
deriving DecidableEq, Repr

/-- What `executeOnRenderThread` is given by the facade. -/
inductive RenderThreadTask where
  | setSize (size : Size2)
  | generateScreenshot (filename : String)
deriving DecidableEq, Repr

/-- The render device as the facade sees it: the buffers received by
`submitCommandBuffer` and the tasks received by `executeOnRenderThread`, each in
order of arrival. -/
structure RenderDevice where
  submitted : List CommandBuffer := []
  renderThread : List RenderThreadTask := []
deriving DecidableEq, Repr

/-- `RenderDevice::submitCommandBuffer`: the device takes the buffer. -/
def RenderDevice.submitCommandBuffer (d : RenderDevice) (b : CommandBuffer) : RenderDevice :=
  { d with submitted := d.submitted ++ [b] }

/-- `RenderDevice::executeOnRenderThread`: the device takes the task. -/
def RenderDevice.executeOnRenderThread (d : RenderDevice) (t : RenderThreadTask) : RenderDevice :=
  { d with renderThread := d.renderThread ++ [t] }

/-! ## The renderer -/

/-- The data members of `Renderer` that Renderer.cpp reads or writes. -/
structure Renderer where
  device : RenderDevice
  commandBuffer : CommandBuffer
  size : Size2
  clearColor : Color
  clearDepth : F32
  clearColorBuffer : Bool
  clearDepthBuffer : Bool
  newFrame : Bool
  refillQueue : Bool
deriving DecidableEq, Repr

/-- The renderer as the constructor leaves it: `refillQueue(true)`,
`size = newSize`, an empty command buffer, and the member initialisers of
Renderer.hpp (`clearDepth = 1.0`, `clearColorBuffer = true`,
`clearDepthBuffer = false`). The device built by the constructor, the value of
a default-constructed `Color` and the initial `newFrame` are arguments. -/
def Renderer.fresh (device : RenderDevice) (newSize : Size2) (defaultColor : Color)
    (newFrame : Bool) : Renderer :=
  { device := device
    commandBuffer := {}
    size := newSize
    clearColor := defaultColor
    clearDepth := F32.one
    clearColorBuffer := true
    clearDepthBuffer := false
    newFrame := newFrame
    refillQueue := true }

/-- `Renderer::addCommand`: `commandBuffer.commands.push(command)`. -/
def Renderer.addCommand (r : Renderer) (command : Command) : Renderer :=
  { r with commandBuffer := { commands := r.commandBuffer.commands ++ [command] } }

/-- `Renderer::setClearColorBuffer`. -/
def Renderer.setClearColorBuffer (r : Renderer) (clear : Bool) : Renderer :=
  let r1 := { r with clearColorBuffer := clear }
  r1.addCommand (.SetRenderTargetParametersCommand 0 r1.clearColorBuffer r1.clearDepthBuffer
    r1.clearColor r1.clearDepth)

/-- `Renderer::setClearDepthBuffer`. -/
def Renderer.setClearDepthBuffer (r : Renderer) (clear : Bool) : Renderer :=
  let r1 := { r with clearDepthBuffer := clear }
  r1.addCommand (.SetRenderTargetParametersCommand 0 r1.clearColorBuffer r1.clearDepthBuffer
    r1.clearColor r1.clearDepth)

/-- `Renderer::setClearColor`. -/
def Renderer.setClearColor (r : Renderer) (color : Color) : Renderer :=
  let r1 := { r with clearColor := color }
  r1.addCommand (.SetRenderTargetParametersCommand 0 r1.clearColorBuffer r1.clearDepthBuffer
    r1.clearColor r1.clearDepth)

/-- `Renderer::setClearDepth`. -/
def Renderer.setClearDepth (r : Renderer) (newClearDepth : F32) : Renderer :=
  let r1 := { r with clearDepth := newClearDepth }
  r1.addCommand (.SetRenderTargetParametersCommand 0 r1.clearColorBuffer r1.clearDepthBuffer
    r1.clearColor r1.clearDepth)

/-- `Renderer::setSize`. -/
def Renderer.setSize (r : Renderer) (newSize : Size2) : Renderer :=
  let r1 := { r with size := newSize }
  { r1 with device := r1.device.executeOnRenderThread (.setSize r1.size) }

/-- `Renderer::saveScreenshot`. -/
def Renderer.saveScreenshot (r : Renderer) (filename : String) : Renderer :=
  { r with device := r.device.executeOnRenderThread (.generateScreenshot filename) }

/-- `Renderer::setRenderTarget`. -/
def Renderer.setRenderTarget (r : Renderer) (renderTarget : Nat) : Renderer :=
  r.addCommand (.SetRenderTargetCommand renderTarget)

/-- `Renderer::clearRenderTarget`. -/
def Renderer.clearRenderTarget (r : Renderer) (renderTarget : Nat) : Renderer :=
  r.addCommand (.ClearRenderTargetCommand renderTarget)

/-- `Renderer::setCullMode`. -/
def Renderer.setCullMode (r : Renderer) (cullMode : CullMode) : Renderer :=
  r.addCommand (.SetCullModeCommad cullMode)

/-- `Renderer::setFillMode`. -/
def Renderer.setFillMode (r : Renderer) (fillMode : FillMode) : Renderer :=
  r.addCommand (.SetFillModeCommad fillMode)

/-- `Renderer::setScissorTest`. -/
def Renderer.setScissorTest (r : Renderer) (enabled : Bool) (rectangle : Rect) : Renderer :=
  r.addCommand (.SetScissorTestCommand enabled rectangle)

/-- `Renderer::setViewport`. -/
def Renderer.setViewport (r : Renderer) (viewport : Rect) : Renderer :=
  r.addCommand (.SetViewportCommand viewport)

/-- `Renderer::setDepthStencilState`. -/
def Renderer.setDepthStencilState (r : Renderer) (depthStencilState : Nat) : Renderer :=
  r.addCommand (.SetDepthStencilStateCommand depthStencilState)

/-- `Renderer::setPipelineState`. -/
def Renderer.setPipelineState (r : Renderer) (blendState : Nat) (shader : Nat) : Renderer :=
  r.addCommand (.SetPipelineStateCommand blendState shader)

/-- The message of the `std::runtime_error` thrown by `draw`. -/
def invalidMeshBuffer : String := "Invalid mesh buffer passed to render queue"

/-- `Renderer::draw`. The first component is `error` when the call throws; the
second is the renderer as the call leaves it. -/
def Renderer.draw (r : Renderer) (indexBuffer indexCount indexSize vertexBuffer : Nat)
    (drawMode : DrawMode) (startIndex : Nat) : Except String Unit × Renderer :=
  if indexBuffer = 0 ∨ vertexBuffer = 0 then
    (.error invalidMeshBuffer, r)
  else
    (.ok (), r.addCommand (.DrawCommand indexBuffer indexCount indexSize vertexBuffer
      drawMode startIndex))

/-- `Renderer::pushDebugMarker`. -/
def Renderer.pushDebugMarker (r : Renderer) (name : String) : Renderer :=
  r.addCommand (.PushDebugMarkerCommand name)

/-- `Renderer::popDebugMarker`. -/
def Renderer.popDebugMarker (r : Renderer) : Renderer :=
  r.addCommand .PopDebugMarkerCommand

/-- `Renderer::setShaderConstants`. -/
def Renderer.setShaderConstants (r : Renderer) (fragmentShaderConstants : List (List F32))
    (vertexShaderConstants : List (List F32)) : Renderer :=
  r.addCommand (.SetShaderConstantsCommand fragmentShaderConstants vertexShaderConstants)

/-- The loop of `Renderer::setTextures`,
`for (i = 0; i < LAYERS; ++i) newTextures[i] = (i < textures.size()) ? textures[i] : 0;`
with `remaining` iterations still to run, so that `i = LAYERS - remaining`. -/
def setTexturesLoop (LAYERS : Nat) (textures : List Nat) :
    (remaining : Nat) → (newTextures : List Nat) → List Nat
  | 0, newTextures => newTextures
  | remaining + 1, newTextures =>
    let i := LAYERS - (remaining + 1)
    setTexturesLoop LAYERS textures remaining
      (newTextures.set i (if i < textures.length then textures.getD i 0 else 0))

/-- `Renderer::setTextures`. `LAYERS` is `Texture::LAYERS` and `uninitialised`
is what the local array `newTextures[Texture::LAYERS]` holds before the loop;
only its first `LAYERS` cells exist. -/
def Renderer.setTextures (LAYERS : Nat) (uninitialised : List Nat) (r : Renderer)
    (textures : List Nat) : Renderer :=
  let newTextures := (List.range LAYERS).map (fun i => uninitialised.getD i 0)
  r.addCommand (.SetTexturesCommand (setTexturesLoop LAYERS textures LAYERS newTextures))

/-- `Renderer::present`. -/
def Renderer.present (r : Renderer) : Renderer :=
  let r1 := { r with refillQueue := false }
  let r2 := r1.addCommand .PresentCommand
  let r3 := { r2 with device := r2.device.submitCommandBuffer r2.commandBuffer }
  { r3 with commandBuffer := {} }

/-! ## Sequences of facade calls -/

/-- One call of a member function of `Renderer`, with its arguments. For
`setTextures` the second argument is the content of the local array before the
loop runs. -/
inductive Call where
  | setClearColorBuffer (clear : Bool)
  | setClearDepthBuffer (clear : Bool)
  | setClearColor (color : Color)
  | setClearDepth (newClearDepth : F32)
  | setSize (newSize : Size2)
  | saveScreenshot (filename : String)
  | setRenderTarget (renderTarget : Nat)
  | clearRenderTarget (renderTarget : Nat)
  | setCullMode (cullMode : CullMode)
  | setFillMode (fillMode : FillMode)
  | setScissorTest (enabled : Bool) (rectangle : Rect)
  | setViewport (viewport : Rect)
  | setDepthStencilState (depthStencilState : Nat)
  | setPipelineState (blendState : Nat) (shader : Nat)
  | draw (indexBuffer indexCount indexSize vertexBuffer : Nat) (drawMode : DrawMode)
      (startIndex : Nat)
  | pushDebugMarker (name : String)
  | popDebugMarker
  | setShaderConstants (fragmentShaderConstants : List (List F32))
      (vertexShaderConstants : List (List F32))
  | setTextures (textures : List Nat) (uninitialised : List Nat)
  | present
deriving DecidableEq, Repr

/-- Executing one call: whether it threw, and the renderer afterwards. -/
def Renderer.step (LAYERS : Nat) (r : Renderer) : Call → Except String Unit × Renderer
  | .setClearColorBuffer clear => (.ok (), r.setClearColorBuffer clear)
  | .setClearDepthBuffer clear => (.ok (), r.setClearDepthBuffer clear)
  | .setClearColor color => (.ok (), r.setClearColor color)
  | .setClearDepth newClearDepth => (.ok (), r.setClearDepth newClearDepth)
  | .setSize newSize => (.ok (), r.setSize newSize)
  | .saveScreenshot filename => (.ok (), r.saveScreenshot filename)
  | .setRenderTarget renderTarget => (.ok (), r.setRenderTarget renderTarget)
  | .clearRenderTarget renderTarget => (.ok (), r.clearRenderTarget renderTarget)
  | .setCullMode cullMode => (.ok (), r.setCullMode cullMode)
  | .setFillMode fillMode => (.ok (), r.setFillMode fillMode)
  | .setScissorTest enabled rectangle => (.ok (), r.setScissorTest enabled rectangle)
  | .setViewport viewport => (.ok (), r.setViewport viewport)
  | .setDepthStencilState depthStencilState =>
      (.ok (), r.setDepthStencilState depthStencilState)
  | .setPipelineState blendState shader => (.ok (), r.setPipelineState blendState shader)
  | .draw indexBuffer indexCount indexSize vertexBuffer drawMode startIndex =>
      r.draw indexBuffer indexCount indexSize vertexBuffer drawMode startIndex
  | .pushDebugMarker name => (.ok (), r.pushDebugMarker name)
  | .popDebugMarker => (.ok (), r.popDebugMarker)
  | .setShaderConstants fragmentShaderConstants vertexShaderConstants =>
      (.ok (), r.setShaderConstants fragmentShaderConstants vertexShaderConstants)
  | .setTextures textures uninitialised =>
      (.ok (), Renderer.setTextures LAYERS uninitialised r textures)
  | .present => (.ok (), r.present)

/-- A straight-line caller: the calls run one after the other and the first
exception ends the run. -/
def Renderer.runCalls (LAYERS : Nat) : Renderer → List Call → Except String Unit × Renderer
  | r, [] => (.ok (), r)
  | r, c :: rest =>
    match r.step LAYERS c with
    | (.ok _, r1) => Renderer.runCalls LAYERS r1 rest
    | (.error e, r1) => (.error e, r1)

/-- A caller that catches the exception of each call and goes on with the next
call. -/
def Renderer.execCalls (LAYERS : Nat) : Renderer → List Call → Renderer
  | r, [] => r
  | r, c :: rest => Renderer.execCalls LAYERS (r.step LAYERS c).2 rest

/-- The calls whose body ends in `addCommand` and that are not `present`. -/
def Call.isCommandCall : Call → Bool
  | .setSize _ => false
  | .saveScreenshot _ => false
  | .present => false
  | _ => true

/-! ## Helpers for stating the properties -/

/-- The values cached by the renderer next to its command buffer. -/
structure CachedState where
  size : Size2
  clearColor : Color
  clearDepth : F32
  clearColorBuffer : Bool
  clearDepthBuffer : Bool
deriving DecidableEq, Repr

/-- The cached size and clear state of a renderer. -/
def Renderer.cached (r : Renderer) : CachedState :=
  { size := r.size
    clearColor := r.clearColor
    clearDepth := r.clearDepth
    clearColorBuffer := r.clearColorBuffer
    clearDepthBuffer := r.clearDepthBuffer }

/-- Whether a command is a `SetRenderTargetParametersCommand`. -/
def Command.isSetRenderTargetParameters : Command → Bool
  | .SetRenderTargetParametersCommand _ _ _ _ _ => true
  | _ => false

/-- The last `SetRenderTargetParametersCommand` of a command list, if any. -/
def lastSetRenderTargetParameters (commands : List Command) : Option Command :=
  (commands.filter Command.isSetRenderTargetParameters).getLast?

/-- A renderer used to instantiate the theorems: freshly constructed, size 0×0,
transparent black as default colour. -/
def exampleRenderer : Renderer :=
  Renderer.fresh {} ⟨⟨0⟩, ⟨0⟩⟩ ⟨0, 0, 0, 0⟩ false

/-! ## The specification's reading of a call sequence

These definitions follow the wording of the specification, not the code: every
setter enqueues exactly one command describing the call, the clear setters
enqueue the whole clear configuration after the update, a `draw` with a null
buffer enqueues nothing, and `present` closes the frame. -/

namespace Spec

/-- The clear configuration of the specification's renderer state. -/
structure ClearConfig where
  clearColorBuffer : Bool
  clearDepthBuffer : Bool
  clearColor : Color
  clearDepth : F32
deriving DecidableEq, Repr

/-- The clear configuration after a call: a clear setter replaces its own
value, every other call leaves the configuration alone. -/
def clearAfter (k : ClearConfig) : Call → ClearConfig
  | .setClearColorBuffer clear => { k with clearColorBuffer := clear }
  | .setClearDepthBuffer clear => { k with clearDepthBuffer := clear }
  | .setClearColor color => { k with clearColor := color }
  | .setClearDepth depth => { k with clearDepth := depth }
  | _ => k

/-- The snapshot command for a clear configuration, for render target 0. -/
def snapshot (k : ClearConfig) : Command :=
  .SetRenderTargetParametersCommand 0 k.clearColorBuffer k.clearDepthBuffer k.clearColor
    k.clearDepth

/-- The fixed-width texture binding: `L` slots, slot `i` is the `i`-th texture of
the list when there is one and the null identifier otherwise. -/
def textureSlots (L : Nat) (textures : List Nat) : List Nat :=
  (List.range L).map (fun i => textures.getD i 0)

/-- The command a call enqueues when made in clear configuration `k`, or
`none` when it enqueues nothing. -/
def commandOf (L : Nat) (k : ClearConfig) : Call → Option Command
  | .setClearColorBuffer clear => some (snapshot (clearAfter k (.setClearColorBuffer clear)))
  | .setClearDepthBuffer clear => some (snapshot (clearAfter k (.setClearDepthBuffer clear)))
  | .setClearColor color => some (snapshot (clearAfter k (.setClearColor color)))
  | .setClearDepth depth => some (snapshot (clearAfter k (.setClearDepth depth)))
  | .setSize _ => none
  | .saveScreenshot _ => none
  | .setRenderTarget renderTarget => some (.SetRenderTargetCommand renderTarget)
  | .clearRenderTarget renderTarget => some (.ClearRenderTargetCommand renderTarget)
  | .setCullMode cullMode => some (.SetCullModeCommad cullMode)
  | .setFillMode fillMode => some (.SetFillModeCommad fillMode)
  | .setScissorTest enabled rectangle => some (.SetScissorTestCommand enabled rectangle)
  | .setViewport viewport => some (.SetViewportCommand viewport)
  | .setDepthStencilState state => some (.SetDepthStencilStateCommand state)
  | .setPipelineState blendState shader => some (.SetPipelineStateCommand blendState shader)
  | .draw indexBuffer indexCount indexSize vertexBuffer drawMode startIndex =>
      if indexBuffer = 0 ∨ vertexBuffer = 0 then none
      else some (.DrawCommand indexBuffer indexCount indexSize vertexBuffer drawMode startIndex)
  | .pushDebugMarker name => some (.PushDebugMarkerCommand name)
  | .popDebugMarker => some .PopDebugMarkerCommand
  | .setShaderConstants fragment vertex => some (.SetShaderConstantsCommand fragment vertex)
  | .setTextures textures _ => some (.SetTexturesCommand (textureSlots L textures))
  | .present => some .PresentCommand

/-- The commands enqueued by a list of calls, in call order, starting in
clear configuration `k`. -/
def commandsOf (L : Nat) : ClearConfig → List Call → List Command
  | _, [] => []
  | k, c :: rest => (commandOf L k c).toList ++ commandsOf L (clearAfter k c) rest

/-- The frames submitted by a list of calls: `pending` holds the commands
enqueued since the last `present` (or since construction), `k` is the current
clear configuration. Each `present` closes a frame made of the pending commands
followed by `Present`, and the next frame starts empty. -/
def frames (L : Nat) : ClearConfig → List Command → List Call → List (List Command)
  | _, _, [] => []
  | k, pending, .present :: rest => (pending ++ [.PresentCommand]) :: frames L k [] rest
  | k, pending, c :: rest =>
      frames L (clearAfter k c) (pending ++ (commandOf L k c).toList) rest

/-- The clear configuration after construction: clear the colour buffer, do
not clear the depth buffer, depth 1.0, and the default colour. -/
def initialClear (defaultColor : Color) : ClearConfig :=
  { clearColorBuffer := true
    clearDepthBuffer := false
    clearColor := defaultColor
    clearDepth := F32.one }

end Spec

/-- The clear configuration held by a renderer. -/
def Renderer.clearConfig (r : Renderer) : Spec.ClearConfig :=
  { clearColorBuffer := r.clearColorBuffer
    clearDepthBuffer := r.clearDepthBuffer
    clearColor := r.clearColor
    clearDepth := r.clearDepth }

/-! ## Getters -/

/-- `Renderer::getClearColorBuffer` (Renderer.hpp). -/
def Renderer.getClearColorBuffer (r : Renderer) : Bool := r.clearColorBuffer

/-- `Renderer::getClearDepthBuffer` (Renderer.hpp). -/
def Renderer.getClearDepthBuffer (r : Renderer) : Bool := r.clearDepthBuffer

/-- `Renderer::getClearColor` (Renderer.hpp). -/
def Renderer.getClearColor (r : Renderer) : Color := r.clearColor

/-- `Renderer::getClearDepth` (Renderer.hpp). -/
def Renderer.getClearDepth (r : Renderer) : F32 := r.clearDepth

/-- `Renderer::getSize` (Renderer.hpp). -/
def Renderer.getSize (r : Renderer) : Size2 := r.size

/-! ## Drivers and construction -/

/-- `Renderer::Driver` (Renderer.hpp). -/
inductive Driver where
  | DEFAULT
  | EMPTY
  | OPENGL
  | DIRECT3D11
  | METAL
deriving DecidableEq, Repr

/-- The platform the build targets: which of the `OUZEL_PLATFORM_...` macros
tested in Renderer.cpp is set, `OTHER` when none of them is. -/
inductive Platform where
  | MACOS
  | IOS
  | TVOS
  | ANDROID
  | LINUX
  | WINDOWS
  | EMSCRIPTEN
  | OTHER
deriving DecidableEq, Repr

/-- The preprocessor configuration read by Renderer.cpp: the platform and the
macros `OUZEL_COMPILE_OPENGL`, `OUZEL_COMPILE_DIRECT3D11` and
`OUZEL_COMPILE_METAL`. -/
structure BuildConfig where
  platform : Platform
  compileOpenGL : Bool
  compileDirect3D11 : Bool
  compileMetal : Bool
deriving DecidableEq, Repr

/-- The render device classes instantiated by the constructor of `Renderer`. -/
inductive DeviceClass where
  | RenderDeviceOGLMacOS
  | RenderDeviceOGLIOS
  | RenderDeviceOGLTVOS
  | RenderDeviceOGLAndroid
  | RenderDeviceOGLLinux
  | RenderDeviceOGLWin
  | RenderDeviceOGLEm
  | RenderDeviceOGL
  | RenderDeviceD3D11
  | RenderDeviceMetalMacOS
  | RenderDeviceMetalIOS
  | RenderDeviceMetalTVOS
  | RenderDeviceEmpty
deriving DecidableEq, Repr

/-- `Renderer::getAvailableRenderDrivers`. The function-local static
`availableDrivers` is passed in and returned as second component; the first
component is the returned set. `metalAvailable` is what
`RenderDeviceMetal::available()` answers if it is asked during this call. -/
def Renderer.getAvailableRenderDrivers (cfg : BuildConfig) (metalAvailable : Bool)
    (availableDrivers : Finset Driver) : Finset Driver × Finset Driver :=
  let availableDrivers :=
    if availableDrivers = ∅ then
      let s1 := insert Driver.EMPTY availableDrivers
      let s2 := if cfg.compileOpenGL then insert Driver.OPENGL s1 else s1
      let s3 := if cfg.compileDirect3D11 then insert Driver.DIRECT3D11 s2 else s2
      if cfg.compileMetal then
        (if metalAvailable then insert Driver.METAL s3 else s3)
      else s3
    else availableDrivers
  (availableDrivers, availableDrivers)

/-- The `default:` branch of the driver switch. -/
def Renderer.createDeviceDefault : String × Option DeviceClass :=
  ("Not using render driver", some .RenderDeviceEmpty)

/-- The `switch (driver)` of the constructor: the line written to the log and
the class given to `device.reset`, `none` when no `device.reset` is executed
(`device` stays null). A `case` label exists only when its
`OUZEL_COMPILE_...` macro is set; otherwise the driver falls to `default:`. -/
def Renderer.createDevice (cfg : BuildConfig) (driver : Driver) :
    String × Option DeviceClass :=
  match driver with
  | .OPENGL =>
    if cfg.compileOpenGL then
      ("Using OpenGL render driver",
        some (match cfg.platform with
          | .MACOS => .RenderDeviceOGLMacOS
          | .IOS => .RenderDeviceOGLIOS
          | .TVOS => .RenderDeviceOGLTVOS
          | .ANDROID => .RenderDeviceOGLAndroid
          | .LINUX => .RenderDeviceOGLLinux
          | .WINDOWS => .RenderDeviceOGLWin
          | .EMSCRIPTEN => .RenderDeviceOGLEm
          | .OTHER => .RenderDeviceOGL))
    else Renderer.createDeviceDefault
  | .DIRECT3D11 =>
    if cfg.compileDirect3D11 then
      ("Using Direct3D 11 render driver", some .RenderDeviceD3D11)
    else Renderer.createDeviceDefault
  | .METAL =>
    if cfg.compileMetal then
      ("Using Metal render driver",
        match cfg.platform with
        | .MACOS => some .RenderDeviceMetalMacOS
        | .IOS => some .RenderDeviceMetalIOS
        | .TVOS => some .RenderDeviceMetalTVOS
        | _ => none)
    else Renderer.createDeviceDefault
  | _ => Renderer.createDeviceDefault

/-- How a call of the constructor ends. -/
inductive Constructed where
  | nullDevice
  | initThrew (message : String)
  | constructed (deviceClass : DeviceClass) (renderer : Renderer)
deriving DecidableEq, Repr

/-- `Renderer::Renderer`: the driver switch, `size = newSize`, then
`device->init(...)`. `init` stands for `RenderDevice::init` of the chosen class
with the constructor's arguments: the device it leaves or the exception it
throws. When the switch executed no `device.reset`, `device->init` is a call
through a null pointer (`nullDevice`). -/
def Renderer.construct (cfg : BuildConfig) (init : DeviceClass → Except String RenderDevice)
    (driver : Driver) (newSize : Size2) (defaultColor : Color) (newFrame : Bool) :
    Constructed :=
  match (Renderer.createDevice cfg driver).2 with
  | none => .nullDevice
  | some deviceClass =>
    match init deviceClass with
    | .error message => .initThrew message
    | .ok device =>
      .constructed deviceClass (Renderer.fresh device newSize defaultColor newFrame)

/-- Whether the build has a `case` label for the driver in the constructor's
switch. -/
def BuildConfig.compiled (cfg : BuildConfig) : Driver → Bool
  | .OPENGL => cfg.compileOpenGL
  | .DIRECT3D11 => cfg.compileDirect3D11
  | .METAL => cfg.compileMetal
  | _ => false

/-! ## Frame events and the wait for the next frame -/

/-- `RenderDevice::Event::Type`: Renderer.cpp names the enumerator `FRAME`;
`OTHER` stands for every other enumerator. -/
inductive EventType where
  | FRAME
  | OTHER (code : Nat)
deriving DecidableEq, Repr

/-- `RenderDevice::Event`, as far as Renderer.cpp reads it. -/
structure Event where
  type : EventType
deriving DecidableEq, Repr

/-- `Renderer::handleEvent`. The body runs with `frameMutex` held;
`notify_all` wakes the waiting thread, which then tests `newFrame` again. -/
def Renderer.handleEvent (r : Renderer) (event : Event) : Renderer :=
  if event.type = .FRAME then
    { r with newFrame := true, refillQueue := true }
  else r

/-- `Renderer::waitForNextFrame`, from the state in which the calling thread
holds `frameMutex` and tests the loop condition: with `newFrame` set the loop
`while (!newFrame) frameCondition.wait(lock)` is left, `newFrame = false` is
executed and the call returns (`some`); with `newFrame` clear the thread waits
and the call does not return from this state (`none`). -/
def Renderer.waitForNextFrame (r : Renderer) : Option Renderer :=
  if r.newFrame then some { r with newFrame := false } else none

/-- One step of an interleaving of the submission thread and the device. The
bodies of `handleEvent` and of `waitForNextFrame` exclude each other through
`frameMutex`, so each is one step: the device delivers an event, the
submission thread enters `waitForNextFrame`, the submission thread returns from
it, or the submission thread makes another facade call. -/
inductive Action where
  | deviceEvent (event : Event)
  | waitBegin
  | waitReturn
  | facade (call : Call)
deriving DecidableEq, Repr

/-- The renderer together with whether the submission thread is inside
`waitForNextFrame`. -/
structure Threads where
  renderer : Renderer
  waiting : Bool
deriving DecidableEq, Repr

/-- One step of the interleaving; `none` when the step cannot happen in this
state (the submission thread cannot call while it waits, and cannot return
from `waitForNextFrame` unless it is inside and `newFrame` is set). -/
def Threads.step (LAYERS : Nat) (s : Threads) : Action → Option Threads
  | .deviceEvent event => some { s with renderer := s.renderer.handleEvent event }
  | .waitBegin => if s.waiting then none else some { s with waiting := true }
  | .waitReturn =>
    if s.waiting then
      match s.renderer.waitForNextFrame with
      | some r => some { renderer := r, waiting := false }
      | none => none
    else none
  | .facade call =>
    if s.waiting then none
    else some { s with renderer := (s.renderer.step LAYERS call).2 }

/-- An interleaving: the steps one after the other; `none` when one of them
cannot happen. -/
def Threads.run (LAYERS : Nat) : Threads → List Action → Option Threads
  | s, [] => some s
  | s, a :: rest =>
    match s.step LAYERS a with
    | some s1 => Threads.run LAYERS s1 rest
    | none => none

/-! ## More helpers for stating the properties -/

/-- A `draw` call with a null index buffer or a null vertex buffer. -/
def Call.isFailingDraw : Call → Bool
  | .draw indexBuffer _ _ vertexBuffer _ _ => indexBuffer = 0 || vertexBuffer = 0
  | _ => false

/-- A call of `draw`. -/
def Call.isDraw : Call → Bool
  | .draw _ _ _ _ _ _ => true
  | _ => false

/-- A call of one of the four clear setters. -/
def Call.isClearSetter : Call → Bool
  | .setClearColorBuffer _ => true
  | .setClearDepthBuffer _ => true
  | .setClearColor _ => true
  | .setClearDepth _ => true
  | _ => false

/-- The most recently enqueued `SetRenderTargetParametersCommand`: the last one
of the working buffer, or else the last one of the latest submitted buffer that
contains one. -/
def Renderer.latestSetRenderTargetParameters (r : Renderer) : Option Command :=
  match lastSetRenderTargetParameters r.commandBuffer.commands with
  | some c => some c
  | none =>
    (r.device.submitted.reverse.filterMap
      (fun b => lastSetRenderTargetParameters b.commands)).head?

/-- Every command enqueued so far, oldest first: the submitted buffers in
order of submission, then the working buffer. -/
def Renderer.history (r : Renderer) : List Command :=
  (r.device.submitted.map CommandBuffer.commands).flatten ++ r.commandBuffer.commands

/-! ## Gamepad hat switch (GamepadDeviceDI.cpp, GamepadDeviceIOKit.cpp) -/

/-- The conversion of a DirectInput POV value to a hat position in
`checkInputBuffered` and `checkInputPolled`: `0xffffffff` becomes 8, any other
value is rounded with `+= 4500 / 2; %= 36000; /= 4500` in `uint32_t`
arithmetic. -/
def GamepadDeviceDI.hatSector (hatValue : Nat) : Nat :=
  if hatValue = 0xffffffff then 8
  else ((hatValue + 4500 / 2) % 4294967296) % 36000 / 4500

/-- The D-pad bitmask of a hat position, as written in `checkInputBuffered`,
`checkInputPolled` and `GamepadDeviceIOKit::handleInput`:
`(v >= 8) ? 0 : (1 << (v / 2)) | (1 << (v / 2 + v % 2)) % 4`.
In C++ `%` binds tighter than `|`, and the conditional operator binds loosest,
so the second operand of `|` is `(1 << (v / 2 + v % 2)) % 4`. -/
def dpadBitmask (hatValue : Nat) : Nat :=
  if hatValue ≥ 8 then 0
  else (1 <<< (hatValue / 2)) ||| ((1 <<< (hatValue / 2 + hatValue % 2)) % 4)

/-- The test `(bitmask & bit) > 0` applied to the bitmask for `DPAD_UP` (0x01),
`DPAD_RIGHT` (0x02), `DPAD_DOWN` (0x04) and `DPAD_LEFT` (0x08). -/
def dpadPressed (bitmask : Nat) (bit : Nat) : Bool :=
  decide ((bitmask &&& bit) > 0)

/-! ## Log (utils/Log.hpp) -/

/-- `Log::Level`. -/
inductive Log.Level where
  | OFF
  | ERR
  | WARN
  | INFO
  | ALL
deriving DecidableEq, Repr

/-- The underlying value of a `Log::Level` enumerator, by which `<=` compares. -/
def Log.Level.toNat : Log.Level → Nat
  | .OFF => 0
  | .ERR => 1
  | .WARN => 2
  | .INFO => 3
  | .ALL => 4

/-- The data members of `Log`. -/
structure Log where
  level : Log.Level
  threshold : Log.Level
  s : String
deriving DecidableEq, Repr

/-- A two-component vector (math/Vector2.hpp) over the float carrier `F`. -/
structure Vector2 (F : Type) where
  x : F
  y : F
deriving DecidableEq, Repr

/-- `ouzel::Vector3` (math/Vector3.hpp). -/
structure Vector3 where
  x : F32
  y : F32
  z : F32
deriving DecidableEq, Repr

/-- `ouzel::Vector4` (math/Vector4.hpp). -/
structure Vector4 where
  x : F32
  y : F32
  z : F32
  w : F32
deriving DecidableEq, Repr

/-- `ouzel::Quaternion` (math/Quaternion.hpp). -/
structure Quaternion where
  x : F32
  y : F32
  z : F32
  w : F32
deriving DecidableEq, Repr

/-- `ouzel::Size3` (math/Size3.hpp). -/
structure Size3 where
  width : F32
  height : F32
  depth : F32
deriving DecidableEq, Repr

/-- `ouzel::Matrix4` (math/Matrix4.hpp): the array `m[16]`, as the function
from index to element. -/
structure Matrix4 where
  m : Nat → F32

/-- `template<typename T> Log& operator<<(T val)`; `to_string` is
`std::to_string` for the type. -/
def Log.insertValue {T : Type} (to_string : T → String) (log : Log) (val : T) : Log :=
  if log.level.toNat ≤ log.threshold.toNat then { log with s := log.s ++ to_string val }
  else log

/-- `Log& operator<<(const std::string& val)`. -/
def Log.insertString (log : Log) (val : String) : Log :=
  if log.level.toNat ≤ log.threshold.toNat then { log with s := log.s ++ val }
  else log

/-- `Log& operator<<(const char* val)`; the C string is given by its text. -/
def Log.insertConstChars (log : Log) (val : String) : Log :=
  if log.level.toNat ≤ log.threshold.toNat then { log with s := log.s ++ val }
  else log

/-- `Log& operator<<(char* val)`; the C string is given by its text. -/
def Log.insertChars (log : Log) (val : String) : Log :=
  if log.level.toNat ≤ log.threshold.toNat then { log with s := log.s ++ val }
  else log

/-- The loop of `operator<<(const std::vector<std::string>&)`:
`if (!first) s += ", "; first = false; s += str;`. -/
def Log.insertStringsLoop : List String → Bool → String → String
  | [], _, s => s
  | str :: rest, first, s =>
    let s1 := if !first then s ++ ", " else s
    Log.insertStringsLoop rest false (s1 ++ str)

/-- `Log& operator<<(const std::vector<std::string>& val)`. -/
def Log.insertStrings (log : Log) (val : List String) : Log :=
  if log.level.toNat ≤ log.threshold.toNat then
    { log with s := Log.insertStringsLoop val true log.s }
  else log

/-- `Log& operator<<(const Matrix4& val)`; `to_string` is `std::to_string(float)`.
The body has no test of `level` against `threshold`. -/
def Log.insertMatrix4 (to_string : F32 → String) (log : Log) (val : Matrix4) : Log :=
  { log with s := log.s ++
    (to_string (val.m 0) ++ "," ++ to_string (val.m 1) ++ "," ++ to_string (val.m 2) ++ "," ++
      to_string (val.m 3) ++ "\n" ++
     to_string (val.m 4) ++ "," ++ to_string (val.m 5) ++ "," ++ to_string (val.m 6) ++ "," ++
      to_string (val.m 7) ++ "\n" ++
     to_string (val.m 8) ++ "," ++ to_string (val.m 9) ++ "," ++ to_string (val.m 10) ++ "," ++
      to_string (val.m 11) ++ "\n" ++
     to_string (val.m 12) ++ "," ++ to_string (val.m 13) ++ "," ++ to_string (val.m 14) ++
      "," ++ to_string (val.m 15)) }

/-- `Log& operator<<(const Quaternion& val)`. -/
def Log.insertQuaternion (to_string : F32 → String) (log : Log) (val : Quaternion) : Log :=
  if log.level.toNat ≤ log.threshold.toNat then
    { log with s := log.s ++
      (to_string val.x ++ "," ++ to_string val.y ++ "," ++
        to_string val.z ++ "," ++ to_string val.w) }
  else log

/-- `Log& operator<<(const Size2& val)`. -/
def Log.insertSize2 (to_string : F32 → String) (log : Log) (val : Size2) : Log :=
  if log.level.toNat ≤ log.threshold.toNat then
    { log with s := log.s ++ (to_string val.width ++ "," ++ to_string val.height) }
  else log

/-- `Log& operator<<(const Size3& val)`. -/
def Log.insertSize3 (to_string : F32 → String) (log : Log) (val : Size3) : Log :=
  if log.level.toNat ≤ log.threshold.toNat then
    { log with s := log.s ++
      (to_string val.width ++ "," ++ to_string val.height ++ "," ++ to_string val.depth) }
  else log

/-- `Log& operator<<(const Vector2& val)`. -/
def Log.insertVector2 (to_string : F32 → String) (log : Log) (val : Vector2 F32) : Log :=
  if log.level.toNat ≤ log.threshold.toNat then
    { log with s := log.s ++ (to_string val.x ++ "," ++ to_string val.y) }
  else log

/-- `Log& operator<<(const Vector3& val)`. -/
def Log.insertVector3 (to_string : F32 → String) (log : Log) (val : Vector3) : Log :=
  if log.level.toNat ≤ log.threshold.toNat then
    { log with s := log.s ++
      (to_string val.x ++ "," ++ to_string val.y ++ "," ++ to_string val.z) }
  else log

/-- `Log& operator<<(const Vector4& val)`. -/
def Log.insertVector4 (to_string : F32 → String) (log : Log) (val : Vector4) : Log :=
  if log.level.toNat ≤ log.threshold.toNat then
    { log with s := log.s ++
      (to_string val.x ++ "," ++ to_string val.y ++ "," ++
        to_string val.z ++ "," ++ to_string val.w) }
  else log

/-! ## Language (localization/Language.cpp)

Bytes are numbers below 256. `uint32_t` values are natural numbers; `offset`,
a `uint32_t`, is reduced modulo 2^32 = 4294967296 after each `+=`, and the sum
of two `uint32_t` fields is reduced modulo 2^32. The comparisons against
`data.size()` that involve `sizeof` are made in `size_t`, whose width
`sizeBits` is an argument (32 or 64 on the platforms of the engine). A read of
bytes that do not all lie inside the vector is undefined behaviour in C++; the
embedding stops there with the result `outOfBounds`. -/

/-- The content of a `std::vector<uint8_t>` or of a `std::string`. -/
abbrev Bytes := List (Fin 256)

/-- The byte `data[i]`, for `i` inside the vector. -/
def byteAt (data : Bytes) (i : Nat) : Nat := (data.getD i 0).val

/-- Modelled from the spec: `decodeUInt32Big` is declared in utils/Utils.hpp,
which is not among the sources; it reads the four bytes at the pointer as a
32-bit number, most significant byte first. -/
def decodeUInt32Big (data : Bytes) (offset : Nat) : Nat :=
  byteAt data offset * 16777216 + byteAt data (offset + 1) * 65536 +
    byteAt data (offset + 2) * 256 + byteAt data (offset + 3)

/-- Modelled from the spec: `decodeUInt32Little` is declared in utils/Utils.hpp,
which is not among the sources; it reads the four bytes at the pointer as a
32-bit number, least significant byte first. -/
def decodeUInt32Little (data : Bytes) (offset : Nat) : Nat :=
  byteAt data offset + byteAt data (offset + 1) * 256 +
    byteAt data (offset + 2) * 65536 + byteAt data (offset + 3) * 16777216

/-- The read `*reinterpret_cast<const uint32_t*>(data.data() + offset)`: the four
bytes in the byte order of the host. -/
def hostUInt32 (hostLittleEndian : Bool) (data : Bytes) (offset : Nat) : Nat :=
  if hostLittleEndian then decodeUInt32Little data offset else decodeUInt32Big data offset

/-- The `length` bytes starting at `offset`: the `std::string` built from
`data.data() + offset` and `length`, for a range inside the vector. -/
def bytesAt (data : Bytes) (offset length : Nat) : Bytes :=
  (data.drop offset).take length

/-- `struct TranslationInfo`. -/
structure TranslationInfo where
  stringLength : Nat
  stringOffset : Nat
  translationLength : Nat
  translationOffset : Nat
deriving DecidableEq, Repr

/-- The data member `strings` of `Language`, a `std::map<std::string,
std::string>`, as the function that `find` computes: the value stored under a
key, `none` for a key that is not in the map. -/
structure Language where
  strings : Bytes → Option Bytes

/-- How a call of the constructor of `Language` ends: with an exception, with a
read outside the vector, or with the object. -/
inductive LanguageResult where
  | threw (what : String)
  | outOfBounds
  | constructed (language : Language)

/-- One of the two loops that fill `translations` from a table:
`for (i = 0; i < stringCount; ++i)` reading two words per entry, with
`remaining` iterations to go (`i = stringCount - remaining`). `store` assigns
the two words to their fields of `translations[i]`. `none`: a word does not lie
inside the vector. -/
def readTableLoop (store : TranslationInfo → Nat → Nat → TranslationInfo)
    (decodeUInt32 : Bytes → Nat → Nat) (data : Bytes) (stringCount : Nat) :
    (remaining : Nat) → (offset : Nat) → (translations : Nat → TranslationInfo) →
      Option (Nat → TranslationInfo)
  | 0, _, translations => some translations
  | remaining + 1, offset, translations =>
    let i := stringCount - (remaining + 1)
    if offset + 4 ≤ data.length then
      let first := decodeUInt32 data offset
      let offset1 := (offset + 4) % 4294967296
      if offset1 + 4 ≤ data.length then
        let second := decodeUInt32 data offset1
        let offset2 := (offset1 + 4) % 4294967296
        readTableLoop store decodeUInt32 data stringCount remaining offset2
          (Function.update translations i (store (translations i) first second))
      else none
    else none

/-- The loop over the table of original strings: it assigns `stringLength` and
`stringOffset`. -/
def readStrings (decodeUInt32 : Bytes → Nat → Nat) (data : Bytes) (stringCount : Nat)
    (offset : Nat) (translations : Nat → TranslationInfo) : Option (Nat → TranslationInfo) :=
  readTableLoop (fun t first second => { t with stringLength := first, stringOffset := second })
    decodeUInt32 data stringCount stringCount offset translations

/-- The loop over the table of translations: it assigns `translationLength` and
`translationOffset`. -/
def readTranslations (decodeUInt32 : Bytes → Nat → Nat) (data : Bytes) (stringCount : Nat)
    (offset : Nat) (translations : Nat → TranslationInfo) : Option (Nat → TranslationInfo) :=
  readTableLoop
    (fun t first second => { t with translationLength := first, translationOffset := second })
    decodeUInt32 data stringCount stringCount offset translations

/-- The last loop of the constructor, with `remaining` iterations to go: the
test of the two ranges against `data.size()` (each sum taken in `uint32_t`),
the two strings, and `strings[str] = translation`. -/
def buildStrings (data : Bytes) (translations : Nat → TranslationInfo) (stringCount : Nat) :
    (remaining : Nat) → (strings : Bytes → Option Bytes) → LanguageResult
  | 0, strings => .constructed { strings := strings }
  | remaining + 1, strings =>
    let t := translations (stringCount - (remaining + 1))
    if data.length < (t.stringOffset + t.stringLength) % 4294967296 ∨
        data.length < (t.translationOffset + t.translationLength) % 4294967296 then
      .threw "Not enough data"
    else if t.stringOffset + t.stringLength ≤ data.length then
      let str := bytesAt data t.stringOffset t.stringLength
      if t.translationOffset + t.translationLength ≤ data.length then
        let translation := bytesAt data t.translationOffset t.translationLength
        buildStrings data translations stringCount remaining
          (Function.update strings str (some translation))
      else .outOfBounds
    else .outOfBounds

/-- The constructor of `Language` from the read of `revision` on, with the
decoder chosen from the magic number. The allocation of `translations` is taken
to succeed. -/
def Language.constructDecoded (sizeBits : Nat) (decodeUInt32 : Bytes → Nat → Nat)
    (data : Bytes) (offset : Nat) : LanguageResult :=
  let revision := decodeUInt32 data offset
  let offset := offset + 4
  if revision ≠ 0 then .threw ("Unsupported revision " ++ toString revision)
  else
    let stringCount := decodeUInt32 data offset
    let offset := offset + 4
    let translations : Nat → TranslationInfo := fun _ => ⟨0, 0, 0, 0⟩
    let stringsOffset := decodeUInt32 data offset
    let offset := offset + 4
    let translationsOffset := decodeUInt32 data offset
    let offset := stringsOffset
    if data.length < (offset + 2 * 4 * stringCount) % 2 ^ sizeBits then
      .threw "Not enough data"
    else
      match readStrings decodeUInt32 data stringCount offset translations with
      | none => .outOfBounds
      | some translations =>
        let offset := translationsOffset
        if data.length < (offset + 2 * 4 * stringCount) % 2 ^ sizeBits then
          .threw "Not enough data"
        else
          match readTranslations decodeUInt32 data stringCount offset translations with
          | none => .outOfBounds
          | some translations =>
            buildStrings data translations stringCount stringCount (fun _ => none)

/-- `Language::Language(const std::vector<uint8_t>& data)`. -/
def Language.construct (sizeBits : Nat) (hostLittleEndian : Bool) (data : Bytes) :
    LanguageResult :=
  let MAGIC_BIG := 0xde120495
  let MAGIC_LITTLE := 0x950412de
  let offset := 0
  if data.length < 5 * 4 then .threw "Not enough data"
  else
    let magic := hostUInt32 hostLittleEndian data offset
    let offset := offset + 4
    if magic = MAGIC_BIG then
      Language.constructDecoded sizeBits decodeUInt32Big data offset
    else if magic = MAGIC_LITTLE then
      Language.constructDecoded sizeBits decodeUInt32Little data offset
    else .threw ("Wrong magic " ++ toString magic)

/-- `Language::getString`: the result and the object afterwards. -/
def Language.getString (l : Language) (str : Bytes) : Bytes × Language :=
  match l.strings str with
  | some translation => (translation, l)
  | none => (str, l)

/-- The object of a constructor call that ended with one, the empty table
otherwise. -/
def LanguageResult.language : LanguageResult → Language
  | .constructed l => l
  | _ => { strings := fun _ => none }

/-- Whether the constructor call ended with an exception. -/
def LanguageResult.isThrow : LanguageResult → Bool
  | .threw _ => true
  | _ => false

/-- Whether the constructor call ended with a read outside the vector. -/
def LanguageResult.isOutOfBounds : LanguageResult → Bool
  | .outOfBounds => true
  | _ => false

/-- The 32-bit number `n` as four bytes, least significant first. -/
def littleEndianBytes (n : Nat) : Bytes :=
  [Fin.ofNat (n % 256), Fin.ofNat (n / 256 % 256), Fin.ofNat (n / 65536 % 256),
    Fin.ofNat (n / 16777216 % 256)]

/-- A little-endian catalogue of 36 bytes with one entry whose original string
has length 2 and offset 0xFFFFFFFF: header (magic, revision 0, count 1, tables
at 20 and 28), then the two table entries. -/
def overflowingCatalogue : Bytes :=
  littleEndianBytes 0x950412de ++ littleEndianBytes 0 ++ littleEndianBytes 1 ++
    littleEndianBytes 20 ++ littleEndianBytes 28 ++
    littleEndianBytes 2 ++ littleEndianBytes 0xffffffff ++
    littleEndianBytes 0 ++ littleEndianBytes 0

/-- A little-endian catalogue of 28 bytes with one entry whose table of
original strings is at offset 0xFFFFFFF8: header (magic, revision 0, count 1,
tables at 0xFFFFFFF8 and 20), then one table entry. -/
def wrappingTableCatalogue : Bytes :=
  littleEndianBytes 0x950412de ++ littleEndianBytes 0 ++ littleEndianBytes 1 ++
    littleEndianBytes 0xfffffff8 ++ littleEndianBytes 20 ++
    littleEndianBytes 0 ++ littleEndianBytes 0

/-- A little-endian catalogue of 55 bytes with two entries that have the same
original string "a" (byte 52) and the translations "x" (byte 53) and "y"
(byte 54). -/
def exampleCatalogue : Bytes :=
  littleEndianBytes 0x950412de ++ littleEndianBytes 0 ++ littleEndianBytes 2 ++
    littleEndianBytes 20 ++ littleEndianBytes 36 ++
    littleEndianBytes 1 ++ littleEndianBytes 52 ++ littleEndianBytes 1 ++ littleEndianBytes 52 ++
    littleEndianBytes 1 ++ littleEndianBytes 53 ++ littleEndianBytes 1 ++ littleEndianBytes 54 ++
    [97, 120, 121]

namespace Spec

/-- The `k`-th 32-bit word of the table that starts at `base`, with the offset
taken as a `uint32_t`. -/
def tableWord (decode : Bytes → Nat → Nat) (data : Bytes) (base k : Nat) : Nat :=
  decode data ((base + 4 * k) % 4294967296)

/-- The number of entries: the word at offset 8. -/
def stringCount (decode : Bytes → Nat → Nat) (data : Bytes) : Nat := decode data 8

/-- The offset of the table of original strings: the word at offset 12. -/
def stringsOffset (decode : Bytes → Nat → Nat) (data : Bytes) : Nat := decode data 12

/-- The offset of the table of translations: the word at offset 16. -/
def translationsOffset (decode : Bytes → Nat → Nat) (data : Bytes) : Nat := decode data 16

/-- Entry `i` of the catalogue: length and offset of the original string (words
`2i` and `2i + 1` of the first table) and of the translation (the same words of
the second table). -/
def entry (decode : Bytes → Nat → Nat) (data : Bytes) (i : Nat) : TranslationInfo :=
  { stringLength := tableWord decode data (stringsOffset decode data) (2 * i)
    stringOffset := tableWord decode data (stringsOffset decode data) (2 * i + 1)
    translationLength := tableWord decode data (translationsOffset decode data) (2 * i)
    translationOffset := tableWord decode data (translationsOffset decode data) (2 * i + 1) }

/-- The original string of entry `i`. -/
def key (decode : Bytes → Nat → Nat) (data : Bytes) (i : Nat) : Bytes :=
  bytesAt data (entry decode data i).stringOffset (entry decode data i).stringLength

/-- The translation of entry `i`. -/
def val (decode : Bytes → Nat → Nat) (data : Bytes) (i : Nat) : Bytes :=
  bytesAt data (entry decode data i).translationOffset (entry decode data i).translationLength

end Spec

/-! ## Mouse and gamepad axes (input/Mouse.cpp, GamepadDeviceDI.cpp, GamepadDeviceIOKit.cpp)

The input code computes with `float`. A `float` is either NaN or another value;
the other values form a linearly ordered carrier `F` (the infinities among
them, the two zeros taken as one value). The arithmetic is an argument
(`FloatOps`), so that the definitions hold for every meaning of the operations,
rounding included. The comparisons are those of IEEE-754: false whenever an
operand is NaN. -/

/-- A `float`: NaN, or a value of the ordered carrier. -/
inductive FloatN (F : Type) where
  | nan
  | val (v : F)
deriving DecidableEq, Repr

/-- The `float` arithmetic and literals used by the input code: the literals
`0.0F`, `1.0F`, `2.0F` and `THUMB_DEADZONE = 0.2F` are values of the carrier. -/
structure FloatOps (F : Type) where
  add : FloatN F → FloatN F → FloatN F
  sub : FloatN F → FloatN F → FloatN F
  mul : FloatN F → FloatN F → FloatN F
  div : FloatN F → FloatN F → FloatN F
  neg : FloatN F → FloatN F
  ofInt : Int → FloatN F
  zero : F
  one : F
  two : F
  thumbDeadzone : F

/-- Modelled from the spec: `Vector2::operator+` is declared in math/Vector2.hpp,
which is not among the sources; it adds the components. -/
def Vector2.add {F : Type} (ops : FloatOps F) (a b : Vector2 (FloatN F)) :
    Vector2 (FloatN F) :=
  { x := ops.add a.x b.x, y := ops.add a.y b.y }

/-- Modelled from the spec: `Vector2::operator-` is declared in math/Vector2.hpp,
which is not among the sources; it subtracts the components. -/
def Vector2.sub {F : Type} (ops : FloatOps F) (a b : Vector2 (FloatN F)) :
    Vector2 (FloatN F) :=
  { x := ops.sub a.x b.x, y := ops.sub a.y b.y }

namespace Spec

end Spec

end Ouzel

/-! # Theorems -/

namespace Ouzel

/-! ## Lemmas on the texture loop -/

theorem setTexturesLoop_length (L : Nat) (t : List Nat) (n : Nat) (acc : List Nat) :
    (setTexturesLoop L t n acc).length = acc.length := by
  induction n generalizing acc with
  | zero => rfl
  | succ n ih => simp [setTexturesLoop, ih]

theorem setTexturesLoop_getElem? (L : Nat) (t : List Nat) (n : Nat) (acc : List Nat)
    (hlen : acc.length = L) (hn : n ≤ L) (j : Nat) (hj : j < L) :
    (setTexturesLoop L t n acc)[j]? =
      if L - n ≤ j then some (if j < t.length then t.getD j 0 else 0) else acc[j]? := by
  induction n generalizing acc with
  | zero =>
    have h0 : ¬ (L ≤ j) := by omega
    simp [setTexturesLoop, h0]
  | succ n ih =>
    simp only [setTexturesLoop]
    rw [ih _ (by simp [hlen]) (by omega)]
    by_cases h1 : L - n ≤ j
    · have h2 : L - (n + 1) ≤ j := by omega
      simp [h1, h2]
    · by_cases h2 : L - (n + 1) ≤ j
      · have h3 : L - (n + 1) = j := by omega
        simp only [h1, h2, if_true, if_false]
        rw [h3, List.getElem?_set_self (by omega)]
      · simp only [h1, h2, if_false]
        rw [List.getElem?_set_ne (by omega)]

/-! ## Single calls -/

/-- C1: `draw` called with a null index buffer or a null vertex buffer throws,
and the renderer is left exactly as it was; in particular the working command
buffer has the same commands and the same length, so no `DrawCommand` was
appended. -/
theorem draw_null_buffer_fails (r : Renderer)
    (indexBuffer indexCount indexSize vertexBuffer : Nat) (drawMode : DrawMode)
    (startIndex : Nat) (h : indexBuffer = 0 ∨ vertexBuffer = 0) :
    (r.draw indexBuffer indexCount indexSize vertexBuffer drawMode startIndex).1
        = .error invalidMeshBuffer ∧
    (r.draw indexBuffer indexCount indexSize vertexBuffer drawMode startIndex).2 = r ∧
    (r.draw indexBuffer indexCount indexSize vertexBuffer drawMode startIndex).2.commandBuffer.commands
        = r.commandBuffer.commands ∧
    (r.draw indexBuffer indexCount indexSize vertexBuffer drawMode
        startIndex).2.commandBuffer.commands.length = r.commandBuffer.commands.length := by
  simp [Renderer.draw, h]

/-- Witness of C1: a null index buffer on a renderer whose buffer already holds
a viewport command. -/
theorem draw_null_buffer_fails_witness :
    ((0 : Nat) = 0 ∨ (2 : Nat) = 0) ∧
    ((exampleRenderer.setViewport ⟨⟨0⟩, ⟨0⟩, ⟨1⟩, ⟨1⟩⟩).draw 0 6 2 2 .TRIANGLE_LIST 0).1
        = .error invalidMeshBuffer ∧
    ((exampleRenderer.setViewport ⟨⟨0⟩, ⟨0⟩, ⟨1⟩, ⟨1⟩⟩).draw 0 6 2 2 .TRIANGLE_LIST 0).2
        = exampleRenderer.setViewport ⟨⟨0⟩, ⟨0⟩, ⟨1⟩, ⟨1⟩⟩ ∧
    ((exampleRenderer.setViewport ⟨⟨0⟩, ⟨0⟩, ⟨1⟩, ⟨1⟩⟩).draw 0 6 2 2 .TRIANGLE_LIST
        0).2.commandBuffer.commands
        = (exampleRenderer.setViewport ⟨⟨0⟩, ⟨0⟩, ⟨1⟩, ⟨1⟩⟩).commandBuffer.commands ∧
    ((exampleRenderer.setViewport ⟨⟨0⟩, ⟨0⟩, ⟨1⟩, ⟨1⟩⟩).draw 0 6 2 2 .TRIANGLE_LIST
        0).2.commandBuffer.commands.length
        = (exampleRenderer.setViewport ⟨⟨0⟩, ⟨0⟩, ⟨1⟩, ⟨1⟩⟩).commandBuffer.commands.length :=
  ⟨Or.inl rfl, draw_null_buffer_fails _ 0 6 2 2 .TRIANGLE_LIST 0 (Or.inl rfl)⟩

/-- C2: `draw` called with a non-null index buffer and a non-null vertex buffer
does not throw, and changes the renderer only by appending one `DrawCommand` at
the tail of the working buffer, whose six fields are the six arguments in the
order indexBuffer, indexCount, indexSize, vertexBuffer, drawMode, startIndex. -/
theorem draw_appends_draw_command (r : Renderer)
    (indexBuffer indexCount indexSize vertexBuffer : Nat) (drawMode : DrawMode)
    (startIndex : Nat) (hi : indexBuffer ≠ 0) (hv : vertexBuffer ≠ 0) :
    (r.draw indexBuffer indexCount indexSize vertexBuffer drawMode startIndex).1 = .ok () ∧
    (r.draw indexBuffer indexCount indexSize vertexBuffer drawMode startIndex).2 =
      { r with commandBuffer := { commands := r.commandBuffer.commands ++
          [.DrawCommand indexBuffer indexCount indexSize vertexBuffer drawMode startIndex] } } ∧
    (r.draw indexBuffer indexCount indexSize vertexBuffer drawMode
        startIndex).2.commandBuffer.commands.length = r.commandBuffer.commands.length + 1 := by
  simp [Renderer.draw, Renderer.addCommand, hi, hv]

/-- Witness of C2: the draw call of the end-to-end scenario. -/
theorem draw_appends_draw_command_witness :
    (1 : Nat) ≠ 0 ∧ (2 : Nat) ≠ 0 ∧
    (exampleRenderer.draw 1 6 2 2 .TRIANGLE_LIST 0).1 = .ok () ∧
    (exampleRenderer.draw 1 6 2 2 .TRIANGLE_LIST 0).2 =
      { exampleRenderer with commandBuffer := { commands :=
          exampleRenderer.commandBuffer.commands ++
            [.DrawCommand 1 6 2 2 .TRIANGLE_LIST 0] } } ∧
    (exampleRenderer.draw 1 6 2 2 .TRIANGLE_LIST 0).2.commandBuffer.commands.length
        = exampleRenderer.commandBuffer.commands.length + 1 :=
  ⟨by decide, by decide,
    draw_appends_draw_command exampleRenderer 1 6 2 2 .TRIANGLE_LIST 0 (by decide) (by decide)⟩

/-- C3: `present` hands the device exactly one buffer, the working buffer
followed by a single `PresentCommand`; afterwards the working buffer is empty.
Nothing is handed to the render thread and the cached state is kept. -/
theorem present_submits_buffer (r : Renderer) :
    r.present.device.submitted =
      r.device.submitted ++ [{ commands := r.commandBuffer.commands ++ [.PresentCommand] }] ∧
    r.present.device.submitted.length = r.device.submitted.length + 1 ∧
    r.present.commandBuffer.commands = [] ∧
    r.present.device.renderThread = r.device.renderThread ∧
    r.present.cached = r.cached := by
  simp [Renderer.present, Renderer.addCommand, RenderDevice.submitCommandBuffer,
    Renderer.cached]

/-- C6: for a texture list of any length, `setTextures` changes the renderer
only by appending one `SetTexturesCommand`; the command has exactly `LAYERS`
slots, slot `i` holds `textures[i]` for `i < min (length textures) LAYERS` and
the null identifier 0 for `length textures ≤ i < LAYERS`, whatever the local
array held before the loop. -/
theorem setTextures_fixed_width (LAYERS : Nat) (uninitialised : List Nat) (r : Renderer)
    (textures : List Nat) :
    ∃ slots : List Nat,
      Renderer.setTextures LAYERS uninitialised r textures =
        { r with commandBuffer :=
            { commands := r.commandBuffer.commands ++ [.SetTexturesCommand slots] } } ∧
      slots.length = LAYERS ∧
      (∀ i, i < min textures.length LAYERS → slots[i]? = textures[i]?) ∧
      (∀ i, textures.length ≤ i → i < LAYERS → slots[i]? = some 0) := by
  refine ⟨setTexturesLoop LAYERS textures LAYERS
    ((List.range LAYERS).map (fun i => uninitialised.getD i 0)), rfl, ?_, ?_, ?_⟩
  · simp [setTexturesLoop_length]
  · intro i hi
    have hL : i < LAYERS := lt_of_lt_of_le hi (min_le_right _ _)
    have ht : i < textures.length := lt_of_lt_of_le hi (min_le_left _ _)
    rw [setTexturesLoop_getElem? LAYERS textures LAYERS _ (by simp) le_rfl i hL]
    simp [ht]
  · intro i ht hL
    rw [setTexturesLoop_getElem? LAYERS textures LAYERS _ (by simp) le_rfl i hL]
    have : ¬ i < textures.length := by omega
    simp [this]

/-- C7: `setClearColor c` followed by `setClearDepth d` appends two
`SetRenderTargetParametersCommand`s, one per call; the second is the last
command of the working buffer and carries colour `c`, depth `d` and the current
clear flags; after a following `present` the buffer handed to the device has
that command as its last `SetRenderTargetParametersCommand`. -/
theorem clear_color_then_depth (r : Renderer) (c : Color) (d : F32) :
    ((r.setClearColor c).setClearDepth d).commandBuffer.commands =
      r.commandBuffer.commands ++
        [.SetRenderTargetParametersCommand 0 r.clearColorBuffer r.clearDepthBuffer c
            r.clearDepth,
         .SetRenderTargetParametersCommand 0 r.clearColorBuffer r.clearDepthBuffer c d] ∧
    ((r.setClearColor c).setClearDepth d).commandBuffer.commands.getLast? =
      some (.SetRenderTargetParametersCommand 0
        ((r.setClearColor c).setClearDepth d).clearColorBuffer
        ((r.setClearColor c).setClearDepth d).clearDepthBuffer c d) ∧
    ((r.setClearColor c).setClearDepth d).clearColorBuffer = r.clearColorBuffer ∧
    ((r.setClearColor c).setClearDepth d).clearDepthBuffer = r.clearDepthBuffer ∧
    ∃ submittedBuffer : CommandBuffer,
      ((r.setClearColor c).setClearDepth d).present.device.submitted.getLast?
        = some submittedBuffer ∧
      lastSetRenderTargetParameters submittedBuffer.commands =
        some (.SetRenderTargetParametersCommand 0 r.clearColorBuffer r.clearDepthBuffer c d) := by
  refine ⟨by simp [Renderer.setClearColor, Renderer.setClearDepth, Renderer.addCommand],
    by simp [Renderer.setClearColor, Renderer.setClearDepth, Renderer.addCommand],
    rfl, rfl, ?_⟩
  refine ⟨{ commands := ((r.setClearColor c).setClearDepth d).commandBuffer.commands ++
    [.PresentCommand] }, ?_, ?_⟩
  · simp [Renderer.present, Renderer.addCommand, RenderDevice.submitCommandBuffer]
  · simp [Renderer.setClearColor, Renderer.setClearDepth, Renderer.addCommand,
      lastSetRenderTargetParameters, List.filter_append, List.filter_cons,
      Command.isSetRenderTargetParameters]

/-- C8: each of the four clear setters appends exactly one
`SetRenderTargetParametersCommand` for render target 0 whose payload is the
renderer's complete clear state after the call: the field being set has its
new value, the three others keep the value they had. -/
theorem clear_setters_snapshot (r : Renderer) (flag : Bool) (color : Color) (depth : F32) :
    ((r.setClearColorBuffer flag).commandBuffer.commands =
        r.commandBuffer.commands ++ [.SetRenderTargetParametersCommand 0
          (r.setClearColorBuffer flag).clearColorBuffer
          (r.setClearColorBuffer flag).clearDepthBuffer
          (r.setClearColorBuffer flag).clearColor
          (r.setClearColorBuffer flag).clearDepth] ∧
      r.setClearColorBuffer flag =
        { r with clearColorBuffer := flag,
                 commandBuffer := { commands := r.commandBuffer.commands ++
                   [.SetRenderTargetParametersCommand 0 flag r.clearDepthBuffer r.clearColor
                     r.clearDepth] } }) ∧
    ((r.setClearDepthBuffer flag).commandBuffer.commands =
        r.commandBuffer.commands ++ [.SetRenderTargetParametersCommand 0
          (r.setClearDepthBuffer flag).clearColorBuffer
          (r.setClearDepthBuffer flag).clearDepthBuffer
          (r.setClearDepthBuffer flag).clearColor
          (r.setClearDepthBuffer flag).clearDepth] ∧
      r.setClearDepthBuffer flag =
        { r with clearDepthBuffer := flag,
                 commandBuffer := { commands := r.commandBuffer.commands ++
                   [.SetRenderTargetParametersCommand 0 r.clearColorBuffer flag r.clearColor
                     r.clearDepth] } }) ∧
    ((r.setClearColor color).commandBuffer.commands =
        r.commandBuffer.commands ++ [.SetRenderTargetParametersCommand 0
          (r.setClearColor color).clearColorBuffer
          (r.setClearColor color).clearDepthBuffer
          (r.setClearColor color).clearColor
          (r.setClearColor color).clearDepth] ∧
      r.setClearColor color =
        { r with clearColor := color,
                 commandBuffer := { commands := r.commandBuffer.commands ++
                   [.SetRenderTargetParametersCommand 0 r.clearColorBuffer r.clearDepthBuffer
                     color r.clearDepth] } }) ∧
    ((r.setClearDepth depth).commandBuffer.commands =
        r.commandBuffer.commands ++ [.SetRenderTargetParametersCommand 0
          (r.setClearDepth depth).clearColorBuffer
          (r.setClearDepth depth).clearDepthBuffer
          (r.setClearDepth depth).clearColor
          (r.setClearDepth depth).clearDepth] ∧
      r.setClearDepth depth =
        { r with clearDepth := depth,
                 commandBuffer := { commands := r.commandBuffer.commands ++
                   [.SetRenderTargetParametersCommand 0 r.clearColorBuffer r.clearDepthBuffer
                     r.clearColor depth] } }) := by
  refine ⟨⟨rfl, rfl⟩, ⟨rfl, rfl⟩, ⟨rfl, rfl⟩, ⟨rfl, rfl⟩⟩

/-- C9: `addCommand c` turns the working buffer `b` into `b` followed by `c`:
the length grows by one, every command of `b` stays at its position, `c` is the
last element, and nothing else in the renderer changes. -/
theorem addCommand_appends (r : Renderer) (c : Command) :
    (r.addCommand c).commandBuffer.commands = r.commandBuffer.commands ++ [c] ∧
    (r.addCommand c).commandBuffer.commands.length = r.commandBuffer.commands.length + 1 ∧
    (∀ i, i < r.commandBuffer.commands.length →
      (r.addCommand c).commandBuffer.commands[i]? = r.commandBuffer.commands[i]?) ∧
    (r.addCommand c).commandBuffer.commands.take r.commandBuffer.commands.length
      = r.commandBuffer.commands ∧
    (r.addCommand c).commandBuffer.commands.getLast? = some c ∧
    (r.addCommand c).device = r.device ∧
    (r.addCommand c).cached = r.cached := by
  refine ⟨rfl, by simp [Renderer.addCommand], ?_, by simp [Renderer.addCommand],
    by simp [Renderer.addCommand], rfl, rfl⟩
  intro i hi
  simp [Renderer.addCommand, List.getElem?_append_left hi]

/-- C10: each of the eleven plain setters changes the renderer only by
appending one command of its own kind, carrying the arguments of the call
unchanged and in the same order (fragment constants before vertex constants for
`setShaderConstants`); the cached clear state and size are the same after the
call as before. -/
theorem plain_setters_append_one (r : Renderer) (target : Nat) (cullMode : CullMode)
    (fillMode : FillMode) (enabled : Bool) (rect : Rect) (state blendState shader : Nat)
    (name : String) (fragment vertex : List (List F32)) :
    (r.setRenderTarget target =
        { r with commandBuffer := { commands := r.commandBuffer.commands ++
          [.SetRenderTargetCommand target] } } ∧
      (r.setRenderTarget target).cached = r.cached) ∧
    (r.clearRenderTarget target =
        { r with commandBuffer := { commands := r.commandBuffer.commands ++
          [.ClearRenderTargetCommand target] } } ∧
      (r.clearRenderTarget target).cached = r.cached) ∧
    (r.setCullMode cullMode =
        { r with commandBuffer := { commands := r.commandBuffer.commands ++
          [.SetCullModeCommad cullMode] } } ∧
      (r.setCullMode cullMode).cached = r.cached) ∧
    (r.setFillMode fillMode =
        { r with commandBuffer := { commands := r.commandBuffer.commands ++
          [.SetFillModeCommad fillMode] } } ∧
      (r.setFillMode fillMode).cached = r.cached) ∧
    (r.setScissorTest enabled rect =
        { r with commandBuffer := { commands := r.commandBuffer.commands ++
          [.SetScissorTestCommand enabled rect] } } ∧
      (r.setScissorTest enabled rect).cached = r.cached) ∧
    (r.setViewport rect =
        { r with commandBuffer := { commands := r.commandBuffer.commands ++
          [.SetViewportCommand rect] } } ∧
      (r.setViewport rect).cached = r.cached) ∧
    (r.setDepthStencilState state =
        { r with commandBuffer := { commands := r.commandBuffer.commands ++
          [.SetDepthStencilStateCommand state] } } ∧
      (r.setDepthStencilState state).cached = r.cached) ∧
    (r.setPipelineState blendState shader =
        { r with commandBuffer := { commands := r.commandBuffer.commands ++
          [.SetPipelineStateCommand blendState shader] } } ∧
      (r.setPipelineState blendState shader).cached = r.cached) ∧
    (r.pushDebugMarker name =
        { r with commandBuffer := { commands := r.commandBuffer.commands ++
          [.PushDebugMarkerCommand name] } } ∧
      (r.pushDebugMarker name).cached = r.cached) ∧
    (r.popDebugMarker =
        { r with commandBuffer := { commands := r.commandBuffer.commands ++
          [.PopDebugMarkerCommand] } } ∧
      r.popDebugMarker.cached = r.cached) ∧
    (r.setShaderConstants fragment vertex =
        { r with commandBuffer := { commands := r.commandBuffer.commands ++
          [.SetShaderConstantsCommand fragment vertex] } } ∧
      (r.setShaderConstants fragment vertex).cached = r.cached) := by
  refine ⟨⟨rfl, rfl⟩, ⟨rfl, rfl⟩, ⟨rfl, rfl⟩, ⟨rfl, rfl⟩, ⟨rfl, rfl⟩, ⟨rfl, rfl⟩, ⟨rfl, rfl⟩,
    ⟨rfl, rfl⟩, ⟨rfl, rfl⟩, ⟨rfl, rfl⟩, ⟨rfl, rfl⟩⟩


/-! ## Sequences -/

theorem setTexturesLoop_eq_textureSlots (L : Nat) (t init : List Nat) (h : init.length = L) :
    setTexturesLoop L t L init = Spec.textureSlots L t := by
  apply List.ext_getElem?
  intro j
  by_cases hj : j < L
  · rw [setTexturesLoop_getElem? L t L init h le_rfl j hj]
    by_cases ht : j < t.length
    · simp [Spec.textureSlots, hj, ht]
    · have ht2 : t.length ≤ j := by omega
      simp [Spec.textureSlots, hj, ht, List.getElem?_eq_none ht2]
  · have h1 : (setTexturesLoop L t L init).length ≤ j := by
      rw [setTexturesLoop_length]; omega
    have h2 : (Spec.textureSlots L t).length ≤ j := by
      simp [Spec.textureSlots]; omega
    rw [List.getElem?_eq_none h1, List.getElem?_eq_none h2]

theorem step_not_present (L : Nat) (r : Renderer) (c : Call) (hc : c ≠ .present) :
    (r.step L c).2.commandBuffer.commands =
      r.commandBuffer.commands ++ (Spec.commandOf L r.clearConfig c).toList ∧
    (r.step L c).2.clearConfig = Spec.clearAfter r.clearConfig c ∧
    (r.step L c).2.device.submitted = r.device.submitted := by
  cases c with
  | present => exact absurd rfl hc
  | draw ib ic isz vb dm si =>
    by_cases h : ib = 0 ∨ vb = 0
    · simp [Renderer.step, Renderer.draw, Spec.commandOf, Spec.clearAfter, h]
    · simp [Renderer.step, Renderer.draw, Spec.commandOf, Spec.clearAfter, h,
        Renderer.addCommand, Renderer.clearConfig]
  | setTextures t u =>
    refine ⟨?_, rfl, rfl⟩
    simp [Renderer.step, Renderer.setTextures, Renderer.addCommand, Spec.commandOf,
      setTexturesLoop_eq_textureSlots]
  | setSize sz =>
    simp [Renderer.step, Renderer.setSize, Spec.commandOf, Spec.clearAfter,
      Renderer.clearConfig, RenderDevice.executeOnRenderThread]
  | saveScreenshot f =>
    simp [Renderer.step, Renderer.saveScreenshot, Spec.commandOf, Spec.clearAfter,
      Renderer.clearConfig, RenderDevice.executeOnRenderThread]
  | _ => exact ⟨rfl, rfl, rfl⟩

theorem step_present (L : Nat) (r : Renderer) :
    (r.step L .present).2.commandBuffer.commands = [] ∧
    (r.step L .present).2.clearConfig = r.clearConfig ∧
    (r.step L .present).2.device.submitted =
      r.device.submitted ++ [{ commands := r.commandBuffer.commands ++ [.PresentCommand] }] := by
  simp [Renderer.step, Renderer.present, Renderer.addCommand, Renderer.clearConfig,
    RenderDevice.submitCommandBuffer]

theorem execCalls_append (L : Nat) (calls more : List Call) (r : Renderer) :
    Renderer.execCalls L r (calls ++ more)
      = Renderer.execCalls L (Renderer.execCalls L r calls) more := by
  induction calls generalizing r with
  | nil => rfl
  | cons c rest ih => simp [Renderer.execCalls, ih]

theorem execCalls_submitted (L : Nat) (calls : List Call) (r : Renderer) :
    (Renderer.execCalls L r calls).device.submitted =
      r.device.submitted ++
        (Spec.frames L r.clearConfig r.commandBuffer.commands calls).map CommandBuffer.mk := by
  induction calls generalizing r with
  | nil => simp [Renderer.execCalls, Spec.frames]
  | cons c rest ih =>
    by_cases hc : c = .present
    · subst hc
      obtain ⟨h1, h2, h3⟩ := step_present L r
      simp [Renderer.execCalls, Spec.frames, ih, h1, h2, h3]
    · obtain ⟨h1, h2, h3⟩ := step_not_present L r c hc
      have hf : Spec.frames L r.clearConfig r.commandBuffer.commands (c :: rest) =
          Spec.frames L (Spec.clearAfter r.clearConfig c)
            (r.commandBuffer.commands ++ (Spec.commandOf L r.clearConfig c).toList) rest := by
        cases c <;> first | rfl | exact absurd rfl hc
      simp [Renderer.execCalls, ih, h1, h2, h3, hf]

theorem frames_length (L : Nat) (calls : List Call) (k : Spec.ClearConfig)
    (pending : List Command) :
    (Spec.frames L k pending calls).length = calls.count .present := by
  induction calls generalizing k pending with
  | nil => rfl
  | cons c rest ih =>
    cases c <;> simp [Spec.frames, ih]

theorem present_submits_aux (r : Renderer) :
    r.present.device.submitted =
      r.device.submitted ++ [{ commands := r.commandBuffer.commands ++ [.PresentCommand] }] ∧
    r.present.commandBuffer.commands = [] := by
  simp [Renderer.present, Renderer.addCommand, RenderDevice.submitCommandBuffer]

theorem execCalls_segment (L : Nat) (seg : List Call) (r : Renderer)
    (hseg : ∀ c ∈ seg, c ≠ Call.present) :
    (Renderer.execCalls L r seg).commandBuffer.commands =
      r.commandBuffer.commands ++ Spec.commandsOf L r.clearConfig seg ∧
    (Renderer.execCalls L r seg).device.submitted = r.device.submitted := by
  induction seg generalizing r with
  | nil => simp [Renderer.execCalls, Spec.commandsOf]
  | cons c rest ih =>
    obtain ⟨h1, h2, h3⟩ := step_not_present L r c (hseg c (List.mem_cons_self _ _))
    obtain ⟨i1, i2⟩ := ih (r.step L c).2 (fun d hd => hseg d (List.mem_cons_of_mem _ hd))
    simp [Renderer.execCalls, Spec.commandsOf, i1, i2, h1, h2, h3]

theorem runCalls_cons_ok (L : Nat) (r : Renderer) (c : Call) (rest : List Call)
    (hok : (Renderer.runCalls L r (c :: rest)).1 = .ok ()) :
    (r.step L c).1 = .ok () ∧
    Renderer.runCalls L r (c :: rest) = Renderer.runCalls L (r.step L c).2 rest := by
  rcases hs : r.step L c with ⟨res, r1⟩
  cases res with
  | error e => simp [Renderer.runCalls, hs] at hok
  | ok u => simp [Renderer.runCalls, hs]

theorem runCalls_ok_eq_execCalls (L : Nat) (calls : List Call) (r : Renderer)
    (hok : (Renderer.runCalls L r calls).1 = .ok ()) :
    (Renderer.runCalls L r calls).2 = Renderer.execCalls L r calls := by
  induction calls generalizing r with
  | nil => rfl
  | cons c rest ih =>
    obtain ⟨_, h2⟩ := runCalls_cons_ok L r c rest hok
    rw [h2] at hok ⊢
    simpa [Renderer.execCalls] using ih _ hok

theorem commandOf_of_step_ok (L : Nat) (r : Renderer) (c : Call)
    (hc : c.isCommandCall = true) (hok : (r.step L c).1 = .ok ()) :
    (Spec.commandOf L r.clearConfig c).toList.length = 1 := by
  cases c with
  | draw ib ic isz vb dm si =>
    by_cases h : ib = 0 ∨ vb = 0
    · simp [Renderer.step, Renderer.draw, h] at hok
    · simp [Spec.commandOf, h]
  | setSize sz => simp [Call.isCommandCall] at hc
  | saveScreenshot f => simp [Call.isCommandCall] at hc
  | present => simp [Call.isCommandCall] at hc
  | _ => rfl

theorem commandsOf_length_of_ok (L : Nat) (calls : List Call) (r : Renderer)
    (hcalls : ∀ c ∈ calls, c.isCommandCall = true)
    (hok : (Renderer.runCalls L r calls).1 = .ok ()) :
    (Spec.commandsOf L r.clearConfig calls).length = calls.length := by
  induction calls generalizing r with
  | nil => rfl
  | cons c rest ih =>
    obtain ⟨h1, h2⟩ := runCalls_cons_ok L r c rest hok
    rw [h2] at hok
    have hc := hcalls c (List.mem_cons_self _ _)
    have hne : c ≠ Call.present := by
      intro h; subst h; simp [Call.isCommandCall] at hc
    obtain ⟨_, s2, _⟩ := step_not_present L r c hne
    have := ih (r.step L c).2 (fun d hd => hcalls d (List.mem_cons_of_mem _ hd)) hok
    rw [s2] at this
    simp [Spec.commandsOf, this, commandOf_of_step_ok L r c hc h1]
    omega

/-- C4: after any list of command-producing calls, none of which threw, made
on a freshly constructed renderer, `present` hands the device one buffer holding
exactly the commands of the calls, one per call and in call order, followed by
`PresentCommand`; for the empty list the buffer is `[PresentCommand]`; and
`setClearColor red`, `setViewport rect`, `draw 1 6 2 2 TRIANGLE_LIST 0`,
`present` submits exactly `SetRenderTargetParameters(0, true, false, red, 1.0)`,
`SetViewport(rect)`, `Draw(1, 6, 2, 2, TRIANGLE_LIST, 0)`, `Present`. -/
theorem fresh_frame_in_call_order (L : Nat) (device : RenderDevice) (size : Size2)
    (defaultColor : Color) (newFrame : Bool) (calls : List Call) (red : Color) (rect : Rect)
    (hcalls : calls.all Call.isCommandCall = true)
    (hok : (Renderer.runCalls L (Renderer.fresh device size defaultColor newFrame) calls).1
      = .ok ()) :
    (Renderer.runCalls L (Renderer.fresh device size defaultColor newFrame)
        calls).2.present.device.submitted =
      device.submitted ++ [CommandBuffer.mk
        (Spec.commandsOf L (Spec.initialClear defaultColor) calls ++ [.PresentCommand])] ∧
    (Spec.commandsOf L (Spec.initialClear defaultColor) calls).length = calls.length ∧
    (Renderer.runCalls L (Renderer.fresh device size defaultColor newFrame)
        []).2.present.device.submitted =
      device.submitted ++ [CommandBuffer.mk [.PresentCommand]] ∧
    (Renderer.runCalls L (Renderer.fresh device size defaultColor newFrame)
      [.setClearColor red, .setViewport rect, .draw 1 6 2 2 .TRIANGLE_LIST 0,
       .present]).1 = .ok () ∧
    (Renderer.runCalls L (Renderer.fresh device size defaultColor newFrame)
      [.setClearColor red, .setViewport rect, .draw 1 6 2 2 .TRIANGLE_LIST 0,
       .present]).2.device.submitted =
      device.submitted ++ [CommandBuffer.mk
        [.SetRenderTargetParametersCommand 0 true false red F32.one,
         .SetViewportCommand rect,
         .DrawCommand 1 6 2 2 .TRIANGLE_LIST 0,
         .PresentCommand]] := by
  have hall : ∀ c ∈ calls, c.isCommandCall = true := by
    simpa [List.all_eq_true] using hcalls
  have hseg : ∀ c ∈ calls, c ≠ Call.present := by
    intro c hc h
    have := hall c hc
    subst h
    simp [Call.isCommandCall] at this
  refine ⟨?_, commandsOf_length_of_ok L calls _ hall hok, rfl, rfl, rfl⟩
  rw [runCalls_ok_eq_execCalls L calls _ hok]
  obtain ⟨e1, e2⟩ := execCalls_segment L calls
    (Renderer.fresh device size defaultColor newFrame) hseg
  rw [(present_submits_aux _).1, e1, e2]
  rfl

/-- Witness of C4: three calls on the example renderer with four texture
layers. -/
theorem fresh_frame_in_call_order_witness :
    ([Call.setCullMode .BACK, Call.setTextures [7, 9] [], Call.draw 1 6 2 2 .TRIANGLE_LIST 0].all
        Call.isCommandCall = true) ∧
    (Renderer.runCalls 4 (Renderer.fresh {} ⟨⟨0⟩, ⟨0⟩⟩ ⟨0, 0, 0, 0⟩ false)
        [Call.setCullMode .BACK, Call.setTextures [7, 9] [],
          Call.draw 1 6 2 2 .TRIANGLE_LIST 0]).1 = .ok () ∧
    (Renderer.runCalls 4 (Renderer.fresh {} ⟨⟨0⟩, ⟨0⟩⟩ ⟨0, 0, 0, 0⟩ false)
        [Call.setCullMode .BACK, Call.setTextures [7, 9] [],
          Call.draw 1 6 2 2 .TRIANGLE_LIST 0]).2.present.device.submitted =
      ({} : RenderDevice).submitted ++ [CommandBuffer.mk
        (Spec.commandsOf 4 (Spec.initialClear ⟨0, 0, 0, 0⟩)
          [Call.setCullMode .BACK, Call.setTextures [7, 9] [],
            Call.draw 1 6 2 2 .TRIANGLE_LIST 0] ++ [.PresentCommand])] :=
  ⟨rfl, rfl,
    (fresh_frame_in_call_order 4 {} ⟨⟨0⟩, ⟨0⟩⟩ ⟨0, 0, 0, 0⟩ false
      [Call.setCullMode .BACK, Call.setTextures [7, 9] [],
        Call.draw 1 6 2 2 .TRIANGLE_LIST 0] ⟨255, 0, 0, 255⟩ ⟨⟨0⟩, ⟨0⟩, ⟨1⟩, ⟨1⟩⟩ rfl rfl).1⟩

/-- C5: for any renderer and any list of calls (an exception of a call being
caught by the caller), the buffers handed to the device are, in order, the
frames of the list: the j-th buffer holds the commands pending at the
(j-1)-th `present` boundary, namely the commands of the calls made since the
previous `present` in call order, followed by `PresentCommand`; there is one
buffer per `present`. For a run of calls `seg` without `present`, the buffer
submitted by the `present` that follows it is the working buffer followed by the
commands of `seg` and `PresentCommand`, and the working buffer is empty
afterwards. Calls made later only add buffers after the ones already
submitted, which stay as they were. -/
theorem presents_partition_commands (L : Nat) (r : Renderer)
    (calls more seg : List Call) (hseg : Call.present ∉ seg) :
    (Renderer.execCalls L r calls).device.submitted =
      r.device.submitted ++
        (Spec.frames L r.clearConfig r.commandBuffer.commands calls).map CommandBuffer.mk ∧
    (Spec.frames L r.clearConfig r.commandBuffer.commands calls).length
      = calls.count .present ∧
    (Renderer.execCalls L r (seg ++ [.present])).device.submitted =
      r.device.submitted ++ [CommandBuffer.mk
        (r.commandBuffer.commands ++ Spec.commandsOf L r.clearConfig seg ++
          [.PresentCommand])] ∧
    (Renderer.execCalls L r (seg ++ [.present])).commandBuffer.commands = [] ∧
    ∃ later : List CommandBuffer,
      (Renderer.execCalls L r (calls ++ more)).device.submitted =
        (Renderer.execCalls L r calls).device.submitted ++ later := by
  have hseg2 : ∀ c ∈ seg, c ≠ Call.present := fun c hc h => hseg (h ▸ hc)
  obtain ⟨e1, e2⟩ := execCalls_segment L seg r hseg2
  refine ⟨execCalls_submitted L calls r, frames_length L calls _ _, ?_, ?_, ?_⟩
  · rw [execCalls_append]
    simp [Renderer.execCalls, (step_present L _).2.2, e1, e2]
  · rw [execCalls_append]
    simp [Renderer.execCalls, (step_present L _).1]
  · rw [execCalls_append]
    exact ⟨_, execCalls_submitted L more _⟩

/-- Witness of C5: two frames, the second one after a failed draw, followed by
one more call. -/
theorem presents_partition_commands_witness :
    Call.present ∉ [Call.setCullMode .BACK, Call.draw 0 6 2 2 .TRIANGLE_LIST 0] ∧
    (Renderer.execCalls 4 exampleRenderer
        [Call.setFillMode .SOLID, Call.present, Call.popDebugMarker,
          Call.present]).device.submitted =
      exampleRenderer.device.submitted ++
        (Spec.frames 4 exampleRenderer.clearConfig exampleRenderer.commandBuffer.commands
          [Call.setFillMode .SOLID, Call.present, Call.popDebugMarker,
            Call.present]).map CommandBuffer.mk ∧
    (Renderer.execCalls 4 exampleRenderer
        ([Call.setCullMode .BACK, Call.draw 0 6 2 2 .TRIANGLE_LIST 0] ++
          [.present])).device.submitted =
      exampleRenderer.device.submitted ++ [CommandBuffer.mk
        (exampleRenderer.commandBuffer.commands ++
          Spec.commandsOf 4 exampleRenderer.clearConfig
            [Call.setCullMode .BACK, Call.draw 0 6 2 2 .TRIANGLE_LIST 0] ++
          [.PresentCommand])] :=
  ⟨by simp,
    (presents_partition_commands 4 exampleRenderer
      [Call.setFillMode .SOLID, Call.present, Call.popDebugMarker, Call.present]
      [Call.popDebugMarker]
      [Call.setCullMode .BACK, Call.draw 0 6 2 2 .TRIANGLE_LIST 0] (by simp)).1,
    (presents_partition_commands 4 exampleRenderer
      [Call.setFillMode .SOLID, Call.present, Call.popDebugMarker, Call.present]
      [Call.popDebugMarker]
      [Call.setCullMode .BACK, Call.draw 0 6 2 2 .TRIANGLE_LIST 0] (by simp)).2.2.1⟩

/-! ## Validation at the facade -/

theorem commandOf_isSome_of_not_draw (L : Nat) (k : Spec.ClearConfig) (c : Call)
    (hd : c.isDraw = false) (hc : c.isCommandCall = true) :
    ∃ cmd, Spec.commandOf L k c = some cmd := by
  cases c <;> simp_all [Call.isDraw, Call.isCommandCall, Spec.commandOf]

theorem step_ok_iff (L : Nat) (r : Renderer) (c : Call) :
    (r.step L c).1 = .ok () ↔ c.isFailingDraw = false := by
  cases c with
  | draw ib ic isz vb dm si =>
    by_cases h : ib = 0 ∨ vb = 0
    · have h2 : (ib = 0 ∨ vb = 0) := h
      simp [Renderer.step, Renderer.draw, Call.isFailingDraw, h]
      intro h3
      rcases h2 with h5 | h5
      · exact absurd h5 h3
      · exact h5
    · have h2 := h
      rw [not_or] at h2
      simp [Renderer.step, Renderer.draw, Call.isFailingDraw, h, h2.1, h2.2]
  | _ => simp [Renderer.step, Call.isFailingDraw]

/-- C11: a call that is not a `draw` never throws, whatever its arguments
(null identifiers included): each of the setters enqueues its command at the
tail of the working buffer and `present` submits the buffer closed by
`PresentCommand`. The test in `draw` is the only one: a call throws exactly
when it is a `draw` with a null index buffer or a null vertex buffer. -/
theorem only_draw_validates (L : Nat) (r : Renderer) (c d : Call) (hc : c.isDraw = false) :
    (r.step L c).1 = .ok () ∧
    (c.isCommandCall = true →
      ∃ cmd, Spec.commandOf L r.clearConfig c = some cmd ∧
        (r.step L c).2.commandBuffer.commands = r.commandBuffer.commands ++ [cmd]) ∧
    (c = .present →
      (r.step L c).2.device.submitted = r.device.submitted ++
        [CommandBuffer.mk (r.commandBuffer.commands ++ [.PresentCommand])]) ∧
    ((r.step L d).1 = .ok () ↔ d.isFailingDraw = false) := by
  refine ⟨?_, ?_, ?_, step_ok_iff L r d⟩
  · rw [step_ok_iff]
    cases c <;> first | rfl | simp [Call.isDraw] at hc
  · intro hcc
    obtain ⟨cmd, hcmd⟩ := commandOf_isSome_of_not_draw L r.clearConfig c hc hcc
    have hne : c ≠ Call.present := by
      intro h; subst h; simp [Call.isCommandCall] at hcc
    refine ⟨cmd, hcmd, ?_⟩
    rw [(step_not_present L r c hne).1, hcmd]
    rfl
  · intro hp
    subst hp
    exact (step_present L r).2.2

/-- Witness of C11: `setPipelineState` with two null identifiers. -/
theorem only_draw_validates_witness :
    (Call.setPipelineState 0 0).isDraw = false ∧
    (exampleRenderer.step 4 (Call.setPipelineState 0 0)).1 = .ok () ∧
    (exampleRenderer.step 4 (Call.setPipelineState 0 0)).2.commandBuffer.commands =
      exampleRenderer.commandBuffer.commands ++ [.SetPipelineStateCommand 0 0] :=
  ⟨rfl,
    (only_draw_validates 4 exampleRenderer (Call.setPipelineState 0 0)
      (Call.draw 0 0 0 0 .POINT_LIST 0) rfl).1,
    rfl⟩

/-! ## Construction and drivers -/

/-- C14, as stated, fails: on a Linux build with OpenGL compiled in and
Direct3D 11 not compiled in, constructing a renderer for `DIRECT3D11` selects
the empty render device, logs "Not using render driver", and, when that
device's `init` succeeds, yields a constructed renderer. -/
theorem construct_uncompiled_driver_counterexample :
    BuildConfig.compiled ⟨.LINUX, true, false, false⟩ .DIRECT3D11 = false ∧
    Renderer.createDevice ⟨.LINUX, true, false, false⟩ .DIRECT3D11 =
      ("Not using render driver", some .RenderDeviceEmpty) ∧
    Renderer.construct ⟨.LINUX, true, false, false⟩ (fun _ => .ok {}) .DIRECT3D11
        ⟨⟨0⟩, ⟨0⟩⟩ ⟨0, 0, 0, 0⟩ false =
      .constructed .RenderDeviceEmpty (Renderer.fresh {} ⟨⟨0⟩, ⟨0⟩⟩ ⟨0, 0, 0, 0⟩ false) := by
  refine ⟨rfl, rfl, rfl⟩

/-- C14, amended: for a driver that has no `case` label in the build, the
constructor's switch takes the `default:` branch: it logs
"Not using render driver" and creates the empty render device in place of the
requested one; construction then throws exactly when `init` of the empty device
throws, and otherwise yields a renderer on the empty device. -/
theorem construct_uncompiled_driver_uses_empty (cfg : BuildConfig)
    (init : DeviceClass → Except String RenderDevice) (driver : Driver) (newSize : Size2)
    (defaultColor : Color) (newFrame : Bool) (h : cfg.compiled driver = false) :
    Renderer.createDevice cfg driver = ("Not using render driver", some .RenderDeviceEmpty) ∧
    Renderer.construct cfg init driver newSize defaultColor newFrame =
      (match init .RenderDeviceEmpty with
        | .error message => .initThrew message
        | .ok device =>
          .constructed .RenderDeviceEmpty
            (Renderer.fresh device newSize defaultColor newFrame)) := by
  have hc : Renderer.createDevice cfg driver =
      ("Not using render driver", some .RenderDeviceEmpty) := by
    cases driver <;> simp_all [Renderer.createDevice, BuildConfig.compiled,
      Renderer.createDeviceDefault]
  refine ⟨hc, ?_⟩
  simp [Renderer.construct, hc]

/-- Witness of C14 amended: `OPENGL` on a Windows build without OpenGL. -/
theorem construct_uncompiled_driver_uses_empty_witness :
    BuildConfig.compiled ⟨.WINDOWS, false, true, false⟩ .OPENGL = false ∧
    Renderer.createDevice ⟨.WINDOWS, false, true, false⟩ .OPENGL =
      ("Not using render driver", some .RenderDeviceEmpty) :=
  ⟨rfl,
    (construct_uncompiled_driver_uses_empty ⟨.WINDOWS, false, true, false⟩
      (fun _ => .ok {}) .OPENGL ⟨⟨0⟩, ⟨0⟩⟩ ⟨0, 0, 0, 0⟩ false rfl).1⟩

/-- C15, as stated, fails: `setSize` on the example renderer appends no command
to the working buffer. -/
theorem setSize_appends_no_command_counterexample :
    ¬ ∃ cmd : Command,
      (exampleRenderer.setSize ⟨⟨640⟩, ⟨480⟩⟩).commandBuffer.commands =
        exampleRenderer.commandBuffer.commands ++ [cmd] := by
  rintro ⟨cmd, h⟩
  simp [Renderer.setSize, exampleRenderer, Renderer.fresh] at h

/-- C15, amended: `setSize s` sets the local size, so that `getSize` returns
`s`, and hands the device's render thread one `setSize s` task through
`executeOnRenderThread`; the working command buffer, the submitted buffers and
the clear state are unchanged. -/
theorem setSize_runs_on_render_thread (r : Renderer) (s : Size2) :
    (r.setSize s).getSize = s ∧
    (r.setSize s).device.renderThread = r.device.renderThread ++ [.setSize s] ∧
    (r.setSize s).commandBuffer = r.commandBuffer ∧
    (r.setSize s).device.submitted = r.device.submitted ∧
    (r.setSize s).clearConfig = r.clearConfig := by
  refine ⟨rfl, rfl, rfl, rfl, rfl⟩

/-- C16: the first call of `getAvailableRenderDrivers` (static set empty)
returns a set that contains `EMPTY`, does not contain `DEFAULT`, contains
`OPENGL` iff OpenGL is compiled in, `DIRECT3D11` iff Direct3D 11 is compiled in,
and `METAL` iff Metal is compiled in and `RenderDeviceMetal::available()` holds;
a later call returns the same set and leaves the static set as it is, whatever
`available()` would answer then. -/
theorem available_drivers (cfg : BuildConfig) (metalAvailable metalLater : Bool) :
    Driver.EMPTY ∈ (Renderer.getAvailableRenderDrivers cfg metalAvailable ∅).1 ∧
    Driver.DEFAULT ∉ (Renderer.getAvailableRenderDrivers cfg metalAvailable ∅).1 ∧
    (Driver.OPENGL ∈ (Renderer.getAvailableRenderDrivers cfg metalAvailable ∅).1
      ↔ cfg.compileOpenGL = true) ∧
    (Driver.DIRECT3D11 ∈ (Renderer.getAvailableRenderDrivers cfg metalAvailable ∅).1
      ↔ cfg.compileDirect3D11 = true) ∧
    (Driver.METAL ∈ (Renderer.getAvailableRenderDrivers cfg metalAvailable ∅).1
      ↔ (cfg.compileMetal = true ∧ metalAvailable = true)) ∧
    Renderer.getAvailableRenderDrivers cfg metalLater
        (Renderer.getAvailableRenderDrivers cfg metalAvailable ∅).2 =
      Renderer.getAvailableRenderDrivers cfg metalAvailable ∅ := by
  rcases cfg with ⟨p, o, d, m⟩
  cases o <;> cases d <;> cases m <;> cases metalAvailable <;> cases metalLater <;>
    simp [Renderer.getAvailableRenderDrivers]

/-! ## Failed draws and the clear state -/

theorem step_failing_draw (L : Nat) (r : Renderer) (c : Call) (h : c.isFailingDraw = true) :
    (r.step L c).2 = r := by
  cases c with
  | draw ib ic isz vb dm si =>
    have h2 : ib = 0 ∨ vb = 0 := by simpa [Call.isFailingDraw] using h
    simp [Renderer.step, Renderer.draw, h2]
  | _ => simp [Call.isFailingDraw] at h

theorem execCalls_filter_failing (L : Nat) (calls : List Call) (r : Renderer) :
    Renderer.execCalls L r calls =
      Renderer.execCalls L r (calls.filter (fun c => !c.isFailingDraw)) := by
  induction calls generalizing r with
  | nil => rfl
  | cons c rest ih =>
    by_cases h : c.isFailingDraw = true
    · simp [Renderer.execCalls, List.filter_cons, h, step_failing_draw L r c h, ih r]
    · have h2 : c.isFailingDraw = false := by simpa using h
      simp [Renderer.execCalls, List.filter_cons, h2, ih (r.step L c).2]

/-- C17: for any list of calls closed by `present` (the exception of a failed
`draw` being caught by the caller), the buffers handed to the device, and the
whole renderer, are the same as for the list with every `draw` that has a null
index or vertex buffer removed; a failed `draw` by itself leaves the renderer
as it was. -/
theorem failed_draws_leave_no_trace (L : Nat) (r : Renderer) (calls : List Call) :
    (Renderer.execCalls L r (calls ++ [.present])).device.submitted =
      (Renderer.execCalls L r
        (calls.filter (fun c => !c.isFailingDraw) ++ [.present])).device.submitted ∧
    Renderer.execCalls L r (calls ++ [.present]) =
      Renderer.execCalls L r (calls.filter (fun c => !c.isFailingDraw) ++ [.present]) ∧
    Renderer.execCalls L r calls =
      Renderer.execCalls L r (calls.filter (fun c => !c.isFailingDraw)) ∧
    (∀ indexCount indexSize vertexBuffer drawMode startIndex,
      (r.step L (.draw 0 indexCount indexSize vertexBuffer drawMode startIndex)).2 = r) ∧
    (∀ indexBuffer indexCount indexSize drawMode startIndex,
      (r.step L (.draw indexBuffer indexCount indexSize 0 drawMode startIndex)).2 = r) := by
  have h := execCalls_filter_failing L calls r
  have h2 : Renderer.execCalls L r (calls ++ [.present]) =
      Renderer.execCalls L r (calls.filter (fun c => !c.isFailingDraw) ++ [.present]) := by
    rw [execCalls_append, execCalls_append, ← h]
  refine ⟨by rw [h2], h2, h, ?_, ?_⟩
  · intro ic isz vb dm si
    exact step_failing_draw L r _ (by simp [Call.isFailingDraw])
  · intro ib ic isz dm si
    exact step_failing_draw L r _ (by simp [Call.isFailingDraw])

/-- C19: each clear setter sets its own cached field to the argument, so the
matching getter returns it, and leaves the other three clear fields and the
size as they were. -/
theorem clear_setters_touch_own_field (r : Renderer) (flag : Bool) (color : Color)
    (depth : F32) :
    ((r.setClearColor color).getClearColor = color ∧
      (r.setClearColor color).getClearDepth = r.getClearDepth ∧
      (r.setClearColor color).getClearColorBuffer = r.getClearColorBuffer ∧
      (r.setClearColor color).getClearDepthBuffer = r.getClearDepthBuffer ∧
      (r.setClearColor color).getSize = r.getSize) ∧
    ((r.setClearDepth depth).getClearDepth = depth ∧
      (r.setClearDepth depth).getClearColor = r.getClearColor ∧
      (r.setClearDepth depth).getClearColorBuffer = r.getClearColorBuffer ∧
      (r.setClearDepth depth).getClearDepthBuffer = r.getClearDepthBuffer ∧
      (r.setClearDepth depth).getSize = r.getSize) ∧
    ((r.setClearColorBuffer flag).getClearColorBuffer = flag ∧
      (r.setClearColorBuffer flag).getClearColor = r.getClearColor ∧
      (r.setClearColorBuffer flag).getClearDepth = r.getClearDepth ∧
      (r.setClearColorBuffer flag).getClearDepthBuffer = r.getClearDepthBuffer ∧
      (r.setClearColorBuffer flag).getSize = r.getSize) ∧
    ((r.setClearDepthBuffer flag).getClearDepthBuffer = flag ∧
      (r.setClearDepthBuffer flag).getClearColor = r.getClearColor ∧
      (r.setClearDepthBuffer flag).getClearDepth = r.getClearDepth ∧
      (r.setClearDepthBuffer flag).getClearColorBuffer = r.getClearColorBuffer ∧
      (r.setClearDepthBuffer flag).getSize = r.getSize) := by
  refine ⟨⟨rfl, rfl, rfl, rfl, rfl⟩, ⟨rfl, rfl, rfl, rfl, rfl⟩, ⟨rfl, rfl, rfl, rfl, rfl⟩,
    ⟨rfl, rfl, rfl, rfl, rfl⟩⟩

/-- C20: calling the same clear setter twice in a row with the same argument
leaves the clear state (and the size) as the first call left it, and appends
two equal `SetRenderTargetParametersCommand`s. -/
theorem clear_setters_idempotent (r : Renderer) (flag : Bool) (color : Color) (depth : F32) :
    (((r.setClearColor color).setClearColor color).cached = (r.setClearColor color).cached ∧
      ∃ cmd, cmd.isSetRenderTargetParameters = true ∧
        ((r.setClearColor color).setClearColor color).commandBuffer.commands =
          r.commandBuffer.commands ++ [cmd, cmd]) ∧
    (((r.setClearDepth depth).setClearDepth depth).cached = (r.setClearDepth depth).cached ∧
      ∃ cmd, cmd.isSetRenderTargetParameters = true ∧
        ((r.setClearDepth depth).setClearDepth depth).commandBuffer.commands =
          r.commandBuffer.commands ++ [cmd, cmd]) ∧
    (((r.setClearColorBuffer flag).setClearColorBuffer flag).cached =
        (r.setClearColorBuffer flag).cached ∧
      ∃ cmd, cmd.isSetRenderTargetParameters = true ∧
        ((r.setClearColorBuffer flag).setClearColorBuffer flag).commandBuffer.commands =
          r.commandBuffer.commands ++ [cmd, cmd]) ∧
    (((r.setClearDepthBuffer flag).setClearDepthBuffer flag).cached =
        (r.setClearDepthBuffer flag).cached ∧
      ∃ cmd, cmd.isSetRenderTargetParameters = true ∧
        ((r.setClearDepthBuffer flag).setClearDepthBuffer flag).commandBuffer.commands =
          r.commandBuffer.commands ++ [cmd, cmd]) := by
  refine ⟨⟨rfl, ⟨.SetRenderTargetParametersCommand 0 r.clearColorBuffer r.clearDepthBuffer
      color r.clearDepth, rfl, ?_⟩⟩,
    ⟨rfl, ⟨.SetRenderTargetParametersCommand 0 r.clearColorBuffer r.clearDepthBuffer
      r.clearColor depth, rfl, ?_⟩⟩,
    ⟨rfl, ⟨.SetRenderTargetParametersCommand 0 flag r.clearDepthBuffer
      r.clearColor r.clearDepth, rfl, ?_⟩⟩,
    ⟨rfl, ⟨.SetRenderTargetParametersCommand 0 r.clearColorBuffer flag
      r.clearColor r.clearDepth, rfl, ?_⟩⟩⟩ <;>
  simp [Renderer.setClearColor, Renderer.setClearDepth, Renderer.setClearColorBuffer,
    Renderer.setClearDepthBuffer, Renderer.addCommand]

/-! ## The latest clear snapshot -/

theorem lastSetRenderTargetParameters_append (a b : List Command) :
    lastSetRenderTargetParameters (a ++ b) =
      (lastSetRenderTargetParameters b).or (lastSetRenderTargetParameters a) := by
  simp [lastSetRenderTargetParameters, List.filter_append]

theorem lastSetRenderTargetParameters_flatten (bs : List CommandBuffer) :
    lastSetRenderTargetParameters (bs.map CommandBuffer.commands).flatten =
      (bs.reverse.filterMap (fun b => lastSetRenderTargetParameters b.commands)).head? := by
  induction bs using List.reverseRecOn with
  | nil => rfl
  | append_singleton l b ih =>
    rw [List.map_append, List.flatten_append, lastSetRenderTargetParameters_append,
      List.reverse_concat, List.filterMap_cons]
    cases h : lastSetRenderTargetParameters b.commands with
    | none => simp [h, ih, lastSetRenderTargetParameters_append]
    | some c => simp [h, lastSetRenderTargetParameters_append]

theorem latest_eq_last_of_history (r : Renderer) :
    r.latestSetRenderTargetParameters = lastSetRenderTargetParameters r.history := by
  unfold Renderer.latestSetRenderTargetParameters Renderer.history
  rw [lastSetRenderTargetParameters_append, lastSetRenderTargetParameters_flatten]
  cases lastSetRenderTargetParameters r.commandBuffer.commands <;> rfl

theorem step_history (L : Nat) (r : Renderer) (c : Call) :
    (r.step L c).2.history = r.history ++ (Spec.commandOf L r.clearConfig c).toList ∧
    (r.step L c).2.clearConfig = Spec.clearAfter r.clearConfig c := by
  by_cases hc : c = .present
  · subst hc
    obtain ⟨h1, h2, h3⟩ := step_present L r
    simp [Renderer.history, h1, h2, h3, Spec.commandOf, Spec.clearAfter]
  · obtain ⟨h1, h2, h3⟩ := step_not_present L r c hc
    simp [Renderer.history, h1, h2, h3]

theorem step_keeps_snapshot (L : Nat) (r : Renderer) (c : Call)
    (h : lastSetRenderTargetParameters r.history = some (Spec.snapshot r.clearConfig) ∨
      c.isClearSetter = true) :
    lastSetRenderTargetParameters (r.step L c).2.history =
      some (Spec.snapshot (r.step L c).2.clearConfig) := by
  obtain ⟨h1, h2⟩ := step_history L r c
  rw [h1, h2, lastSetRenderTargetParameters_append]
  cases c with
  | draw ib ic isz vb dm si =>
    rcases h with h | h
    · by_cases hz : ib = 0 ∨ vb = 0
      · simp [Spec.commandOf, hz, lastSetRenderTargetParameters, h, Spec.clearAfter] at *
        exact h
      · simp [Spec.commandOf, hz, lastSetRenderTargetParameters, h, Spec.clearAfter,
          Command.isSetRenderTargetParameters] at *
        exact h
    · simp [Call.isClearSetter] at h
  | setClearColorBuffer b =>
    simp [Spec.commandOf, lastSetRenderTargetParameters, Spec.snapshot,
      Command.isSetRenderTargetParameters]
  | setClearDepthBuffer b =>
    simp [Spec.commandOf, lastSetRenderTargetParameters, Spec.snapshot,
      Command.isSetRenderTargetParameters]
  | setClearColor b =>
    simp [Spec.commandOf, lastSetRenderTargetParameters, Spec.snapshot,
      Command.isSetRenderTargetParameters]
  | setClearDepth b =>
    simp [Spec.commandOf, lastSetRenderTargetParameters, Spec.snapshot,
      Command.isSetRenderTargetParameters]
  | _ =>
    rcases h with h | h
    · simp [Spec.commandOf, lastSetRenderTargetParameters, Spec.clearAfter,
        Command.isSetRenderTargetParameters] at *
      exact h
    · simp [Call.isClearSetter] at h

theorem execCalls_keeps_snapshot (L : Nat) (calls : List Call) (r : Renderer)
    (h : lastSetRenderTargetParameters r.history = some (Spec.snapshot r.clearConfig) ∨
      calls.any Call.isClearSetter = true) :
    lastSetRenderTargetParameters (Renderer.execCalls L r calls).history =
      some (Spec.snapshot (Renderer.execCalls L r calls).clearConfig) := by
  induction calls generalizing r with
  | nil =>
    rcases h with h | h
    · exact h
    · simp at h
  | cons c rest ih =>
    simp only [Renderer.execCalls]
    apply ih
    by_cases hc : c.isClearSetter = true
    · exact Or.inl (step_keeps_snapshot L r c (Or.inr hc))
    · rcases h with h | h
      · exact Or.inl (step_keeps_snapshot L r c (Or.inl h))
      · right
        simpa [List.any_cons, hc] using h

/-- C18: in the state reached from construction by any list of facade calls
(the exception of a failed `draw` being caught) that contains at least one call
of a clear setter, the most recently enqueued
`SetRenderTargetParametersCommand` (the last one of the working buffer, or else
of the latest submitted buffer that contains one) is for render target 0 and
carries the renderer's current `clearColorBuffer`, `clearDepthBuffer`,
`clearColor` and `clearDepth`. -/
theorem latest_snapshot_is_current (L : Nat) (device : RenderDevice) (size : Size2)
    (defaultColor : Color) (newFrame : Bool) (calls : List Call)
    (hclear : calls.any Call.isClearSetter = true) :
    (Renderer.execCalls L (Renderer.fresh device size defaultColor newFrame)
        calls).latestSetRenderTargetParameters =
      some (.SetRenderTargetParametersCommand 0
        (Renderer.execCalls L (Renderer.fresh device size defaultColor newFrame)
          calls).getClearColorBuffer
        (Renderer.execCalls L (Renderer.fresh device size defaultColor newFrame)
          calls).getClearDepthBuffer
        (Renderer.execCalls L (Renderer.fresh device size defaultColor newFrame)
          calls).getClearColor
        (Renderer.execCalls L (Renderer.fresh device size defaultColor newFrame)
          calls).getClearDepth) := by
  rw [latest_eq_last_of_history, execCalls_keeps_snapshot L calls _ (Or.inr hclear)]
  rfl

/-- Witness of C18: a clear setter, a `present`, and further calls, so that the
latest snapshot sits in a submitted buffer. -/
theorem latest_snapshot_is_current_witness :
    ([Call.setClearDepthBuffer true, Call.present, Call.popDebugMarker].any
        Call.isClearSetter = true) ∧
    (Renderer.execCalls 4 (Renderer.fresh {} ⟨⟨0⟩, ⟨0⟩⟩ ⟨0, 0, 0, 0⟩ false)
        [Call.setClearDepthBuffer true, Call.present,
          Call.popDebugMarker]).latestSetRenderTargetParameters =
      some (.SetRenderTargetParametersCommand 0
        (Renderer.execCalls 4 (Renderer.fresh {} ⟨⟨0⟩, ⟨0⟩⟩ ⟨0, 0, 0, 0⟩ false)
          [Call.setClearDepthBuffer true, Call.present,
            Call.popDebugMarker]).getClearColorBuffer
        (Renderer.execCalls 4 (Renderer.fresh {} ⟨⟨0⟩, ⟨0⟩⟩ ⟨0, 0, 0, 0⟩ false)
          [Call.setClearDepthBuffer true, Call.present,
            Call.popDebugMarker]).getClearDepthBuffer
        (Renderer.execCalls 4 (Renderer.fresh {} ⟨⟨0⟩, ⟨0⟩⟩ ⟨0, 0, 0, 0⟩ false)
          [Call.setClearDepthBuffer true, Call.present,
            Call.popDebugMarker]).getClearColor
        (Renderer.execCalls 4 (Renderer.fresh {} ⟨⟨0⟩, ⟨0⟩⟩ ⟨0, 0, 0, 0⟩ false)
          [Call.setClearDepthBuffer true, Call.present,
            Call.popDebugMarker]).getClearDepth) :=
  ⟨rfl,
    latest_snapshot_is_current 4 {} ⟨⟨0⟩, ⟨0⟩⟩ ⟨0, 0, 0, 0⟩ false
      [Call.setClearDepthBuffer true, Call.present, Call.popDebugMarker] rfl⟩

/-! ## Frame pacing -/

theorem step_newFrame (L : Nat) (r : Renderer) (c : Call) :
    (r.step L c).2.newFrame = r.newFrame := by
  cases c with
  | draw ib ic isz vb dm si =>
    by_cases h : ib = 0 ∨ vb = 0
    · simp [Renderer.step, Renderer.draw, h]
    · simp [Renderer.step, Renderer.draw, h, Renderer.addCommand]
  | _ => rfl

theorem execCalls_newFrame (L : Nat) (calls : List Call) (r : Renderer) :
    (Renderer.execCalls L r calls).newFrame = r.newFrame := by
  induction calls generalizing r with
  | nil => rfl
  | cons c rest ih => simp [Renderer.execCalls, ih, step_newFrame]

theorem run_append (L : Nat) (a b : List Action) (s : Threads) :
    Threads.run L s (a ++ b) = (Threads.run L s a).bind (fun s1 => Threads.run L s1 b) := by
  induction a generalizing s with
  | nil => rfl
  | cons x rest ih =>
    cases h : s.step L x with
    | none => simp [Threads.run, h]
    | some s1 => simp [Threads.run, h, ih]

theorem run_facade (L : Nat) (calls : List Call) (r : Renderer) :
    Threads.run L ⟨r, false⟩ (calls.map Action.facade) =
      some ⟨Renderer.execCalls L r calls, false⟩ := by
  induction calls generalizing r with
  | nil => rfl
  | cons c rest ih => simp [Threads.run, Threads.step, Renderer.execCalls, ih]

theorem handleEvent_not_frame (r : Renderer) (e : Event) (h : e.type ≠ .FRAME) :
    r.handleEvent e = r := by
  simp [Renderer.handleEvent, h]

theorem run_events_not_frame (L : Nat) (events : List Event) (s : Threads)
    (h : ∀ e ∈ events, e.type ≠ EventType.FRAME) :
    Threads.run L s (events.map Action.deviceEvent) = some s := by
  induction events generalizing s with
  | nil => rfl
  | cons e rest ih =>
    have he := h e (List.mem_cons_self _ _)
    simp only [List.map_cons, Threads.run, Threads.step, handleEvent_not_frame _ e he]
    exact ih s (fun x hx => h x (List.mem_cons_of_mem _ hx))

theorem run_waitReturn_some (L : Nat) (s s1 : Threads) (pre : List Action)
    (h : Threads.run L s (pre ++ [.waitReturn]) = some s1) :
    ∃ s0, Threads.run L s pre = some s0 ∧ s0.waiting = true ∧ s0.renderer.newFrame = true ∧
      s1 = ⟨{ s0.renderer with newFrame := false }, false⟩ := by
  rw [run_append] at h
  cases h0 : Threads.run L s pre with
  | none => simp [h0] at h
  | some s0 =>
    refine ⟨s0, rfl, ?_⟩
    simp only [h0, Option.some_bind, Threads.run, Threads.step] at h
    by_cases hw : s0.waiting = true
    · by_cases hn : s0.renderer.newFrame = true
      · simp [hw, hn, Renderer.waitForNextFrame] at h
        exact ⟨hw, hn, h.symm⟩
      · simp [hw, hn, Renderer.waitForNextFrame] at h
    · simp [hw] at h

theorem newFrame_set_by_frame_event (L : Nat) (pre : List Action) (s0 s : Threads)
    (h0 : s0.renderer.newFrame = false) (hrun : Threads.run L s0 pre = some s)
    (hs : s.renderer.newFrame = true) :
    ∃ a e b, pre = a ++ [Action.deviceEvent e] ++ b ∧ e.type = EventType.FRAME ∧
      Action.waitReturn ∉ b := by
  induction pre using List.reverseRecOn generalizing s with
  | nil =>
    simp [Threads.run] at hrun
    subst hrun
    rw [h0] at hs
    exact absurd hs (by simp)
  | append_singleton l x ih =>
    rw [run_append] at hrun
    cases hl : Threads.run L s0 l with
    | none => simp [hl] at hrun
    | some s1 =>
      simp only [hl, Option.some_bind, Threads.run] at hrun
      cases hx : s1.step L x with
      | none => simp [hx] at hrun
      | some s2 =>
        simp only [hx, Option.some.injEq] at hrun
        subst hrun
        cases x with
        | deviceEvent e =>
          by_cases he : e.type = EventType.FRAME
          · exact ⟨l, e, [], by simp, he, by simp⟩
          · simp only [Threads.step, Option.some.injEq] at hx
            subst hx
            simp only [handleEvent_not_frame _ e he] at hs
            obtain ⟨a, e1, b, hab, he1, hb⟩ := ih s1 hl hs
            refine ⟨a, e1, b ++ [Action.deviceEvent e], by simp [hab], he1, ?_⟩
            simp [hb]
        | waitBegin =>
          by_cases hw : s1.waiting = true
          · simp [Threads.step, hw] at hx
          · simp only [Threads.step, hw] at hx
            simp only [Bool.false_eq_true, if_false, Option.some.injEq] at hx
            subst hx
            obtain ⟨a, e1, b, hab, he1, hb⟩ := ih s1 hl hs
            refine ⟨a, e1, b ++ [Action.waitBegin], by simp [hab], he1, ?_⟩
            simp [hb]
        | waitReturn =>
          obtain ⟨s3, _, _, _, h4⟩ := run_waitReturn_some L s1 s2 []
            (by simp [Threads.run, hx])
          subst h4
          simp at hs
        | facade c =>
          by_cases hw : s1.waiting = true
          · simp [Threads.step, hw] at hx
          · simp only [Threads.step, hw] at hx
            simp only [Bool.false_eq_true, if_false, Option.some.injEq] at hx
            subst hx
            simp only [step_newFrame] at hs
            obtain ⟨a, e1, b, hab, he1, hb⟩ := ih s1 hl hs
            refine ⟨a, e1, b ++ [Action.facade c], by simp [hab], he1, ?_⟩
            simp [hb]

/-- C12, as stated, fails: starting with `newFrame` clear, the device delivers a
`FRAME` event, then the submission thread calls `waitForNextFrame`, and the call
returns although no event at all arrives between its beginning and its return:
the earlier `FRAME` event by itself lets the call return. -/
theorem wait_returns_on_earlier_frame_counterexample :
    exampleRenderer.newFrame = false ∧
    (Threads.run 4 ⟨exampleRenderer, false⟩
      ([Action.deviceEvent ⟨.FRAME⟩] ++ [Action.waitBegin] ++
        ([] : List Event).map Action.deviceEvent ++ [Action.waitReturn])).isSome = true ∧
    ¬ ∃ e ∈ ([] : List Event), e.type = EventType.FRAME := by
  refine ⟨rfl, rfl, by simp⟩

/-- C12, amended: in every interleaving that starts with `newFrame` clear, a
return from `waitForNextFrame` happens only after `handleEvent` has received a
`FRAME` event since the previous return from `waitForNextFrame` (or since the
start when there is none); after the return `newFrame` is clear. The event need
not follow the beginning of the call: a `FRAME` event received before the call
begins lets it return at once. -/
theorem wait_returns_after_unconsumed_frame (L : Nat) (s0 s1 : Threads) (pre : List Action)
    (r : Renderer) (h0 : s0.renderer.newFrame = false)
    (hrun : Threads.run L s0 (pre ++ [.waitReturn]) = some s1) :
    (∃ a e b, pre = a ++ [Action.deviceEvent e] ++ b ∧ e.type = EventType.FRAME ∧
      Action.waitReturn ∉ b) ∧
    s1.renderer.newFrame = false ∧
    (Threads.run L ⟨r, false⟩
      [Action.deviceEvent ⟨.FRAME⟩, Action.waitBegin, Action.waitReturn]).isSome = true := by
  obtain ⟨s, hs, _, hn, h1⟩ := run_waitReturn_some L s0 s1 pre hrun
  refine ⟨newFrame_set_by_frame_event L pre s0 s h0 hs hn, by rw [h1], ?_⟩
  simp [Threads.run, Threads.step, Renderer.handleEvent, Renderer.waitForNextFrame]

/-- Witness of C12 amended: the call begins, a `FRAME` event arrives, the call
returns. -/
theorem wait_returns_after_unconsumed_frame_witness :
    exampleRenderer.newFrame = false ∧
    Threads.run 4 ⟨exampleRenderer, false⟩
        ([Action.waitBegin, Action.deviceEvent ⟨.FRAME⟩] ++ [Action.waitReturn]) =
      some ⟨{ exampleRenderer with refillQueue := true }, false⟩ ∧
    (∃ a e b, [Action.waitBegin, Action.deviceEvent ⟨.FRAME⟩] =
        a ++ [Action.deviceEvent e] ++ b ∧ e.type = EventType.FRAME ∧
      Action.waitReturn ∉ b) :=
  ⟨rfl, rfl,
    (wait_returns_after_unconsumed_frame 4 ⟨exampleRenderer, false⟩
      ⟨{ exampleRenderer with refillQueue := true }, false⟩
      [Action.waitBegin, Action.deviceEvent ⟨.FRAME⟩] exampleRenderer rfl rfl).1⟩

/-- C13: when a call of `waitForNextFrame` returns, `newFrame` is clear; if the
submission thread then makes any facade calls and calls `waitForNextFrame`
again while the device delivers only events that are not `FRAME`, the second
call is waiting and cannot return; once `handleEvent` receives a `FRAME` event
it returns. -/
theorem second_wait_needs_new_frame (L : Nat) (s s1 : Threads) (pre : List Action)
    (calls : List Call) (events : List Event)
    (hret : Threads.run L s (pre ++ [.waitReturn]) = some s1)
    (hev : ∀ e ∈ events, e.type ≠ EventType.FRAME) :
    s1.renderer.newFrame = false ∧
    (Threads.run L s1 (calls.map Action.facade ++ [Action.waitBegin] ++
      events.map Action.deviceEvent)).isSome = true ∧
    Threads.run L s1 (calls.map Action.facade ++ [Action.waitBegin] ++
      events.map Action.deviceEvent ++ [Action.waitReturn]) = none ∧
    (Threads.run L s1 (calls.map Action.facade ++ [Action.waitBegin] ++
      events.map Action.deviceEvent ++
        [Action.deviceEvent ⟨.FRAME⟩, Action.waitReturn])).isSome = true := by
  obtain ⟨s0, _, _, _, h1⟩ := run_waitReturn_some L s s1 pre hret
  subst h1
  have hmid : Threads.run L ⟨{ s0.renderer with newFrame := false }, false⟩
      (calls.map Action.facade ++ [Action.waitBegin] ++ events.map Action.deviceEvent) =
      some ⟨Renderer.execCalls L { s0.renderer with newFrame := false } calls, true⟩ := by
    rw [run_append, run_append, run_facade]
    simp only [Option.some_bind, Threads.run, Threads.step, Bool.false_eq_true, if_false]
    exact run_events_not_frame L events _ hev
  have hflag : (Renderer.execCalls L { s0.renderer with newFrame := false } calls).newFrame
      = false := by rw [execCalls_newFrame]
  refine ⟨rfl, by rw [hmid]; rfl, ?_, ?_⟩
  · rw [run_append, hmid]
    simp [Threads.run, Threads.step, Renderer.waitForNextFrame, hflag]
  · rw [run_append, hmid]
    simp [Threads.run, Threads.step, Renderer.waitForNextFrame, Renderer.handleEvent]

/-- Witness of C13: a first call that returns after a `FRAME` event, then a
`present`, a second call and an event that is not `FRAME`. -/
theorem second_wait_needs_new_frame_witness :
    Threads.run 4 ⟨exampleRenderer, false⟩
        ([Action.waitBegin, Action.deviceEvent ⟨.FRAME⟩] ++ [Action.waitReturn]) =
      some ⟨{ exampleRenderer with refillQueue := true }, false⟩ ∧
    (∀ e ∈ [Event.mk (.OTHER 1)], e.type ≠ EventType.FRAME) ∧
    Threads.run 4 ⟨{ exampleRenderer with refillQueue := true }, false⟩
      ([Call.present].map Action.facade ++ [Action.waitBegin] ++
        [Event.mk (.OTHER 1)].map Action.deviceEvent ++ [Action.waitReturn]) = none :=
  ⟨rfl, by simp,
    (second_wait_needs_new_frame 4 ⟨exampleRenderer, false⟩
      ⟨{ exampleRenderer with refillQueue := true }, false⟩
      [Action.waitBegin, Action.deviceEvent ⟨.FRAME⟩] [Call.present] [Event.mk (.OTHER 1)]
      rfl (by simp)).2.2.1⟩

/-! ## handleEvent -/

/-- C21: `handleEvent` with an event that is not `FRAME` leaves the renderer
as it is, whatever its state (`newFrame`, `refillQueue`, command buffer and
clear state unchanged); so after any number of such events a thread waiting in
`waitForNextFrame` can return exactly when it could before them, and not at all
when `newFrame` is clear. With a `FRAME` event `handleEvent` sets `newFrame`
and `refillQueue` and changes nothing else, in particular neither the command
buffer nor the clear state. -/
theorem handleEvent_effect (L : Nat) (r : Renderer) (e f : Event) (events : List Event)
    (he : e.type ≠ EventType.FRAME) (hf : f.type = EventType.FRAME)
    (hev : ∀ x ∈ events, x.type ≠ EventType.FRAME) :
    r.handleEvent e = r ∧
    (r.handleEvent e).newFrame = r.newFrame ∧
    (r.handleEvent e).refillQueue = r.refillQueue ∧
    (r.handleEvent e).commandBuffer = r.commandBuffer ∧
    (r.handleEvent e).cached = r.cached ∧
    Threads.run L ⟨r, true⟩ (events.map Action.deviceEvent ++ [Action.waitReturn]) =
      Threads.run L ⟨r, true⟩ [Action.waitReturn] ∧
    (r.newFrame = false →
      Threads.run L ⟨r, true⟩ (events.map Action.deviceEvent ++ [Action.waitReturn]) = none) ∧
    r.handleEvent f = { r with newFrame := true, refillQueue := true } ∧
    (r.handleEvent f).newFrame = true ∧
    (r.handleEvent f).refillQueue = true ∧
    (r.handleEvent f).commandBuffer = r.commandBuffer ∧
    (r.handleEvent f).cached = r.cached ∧
    (r.handleEvent f).device = r.device := by
  have h1 : r.handleEvent e = r := handleEvent_not_frame r e he
  have h3 : r.handleEvent f = { r with newFrame := true, refillQueue := true } := by
    simp [Renderer.handleEvent, hf]
  have hrun : Threads.run L ⟨r, true⟩ (events.map Action.deviceEvent ++ [Action.waitReturn]) =
      Threads.run L ⟨r, true⟩ [Action.waitReturn] := by
    rw [run_append, run_events_not_frame L events _ hev]
    rfl
  refine ⟨h1, by rw [h1], by rw [h1], by rw [h1], by rw [h1], hrun, ?_, h3, by rw [h3],
    by rw [h3], by rw [h3], by rw [h3]; rfl, by rw [h3]⟩
  intro hr
  rw [hrun]
  simp [Threads.run, Threads.step, Renderer.waitForNextFrame, hr]

/-- Witness of C21: an event of another type on a renderer whose `newFrame` and
`refillQueue` are set and whose buffer holds a command, and a waiter on the
example renderer, whose `newFrame` is clear. -/
theorem handleEvent_effect_witness :
    (Event.mk (.OTHER 3)).type ≠ EventType.FRAME ∧
    (Event.mk .FRAME).type = EventType.FRAME ∧
    (∀ x ∈ [Event.mk (.OTHER 3), Event.mk (.OTHER 5)], x.type ≠ EventType.FRAME) ∧
    ({ exampleRenderer.popDebugMarker with newFrame := true } : Renderer).handleEvent
        (Event.mk (.OTHER 3)) =
      { exampleRenderer.popDebugMarker with newFrame := true } ∧
    Threads.run 4 ⟨exampleRenderer, true⟩
      ([Event.mk (.OTHER 3), Event.mk (.OTHER 5)].map Action.deviceEvent ++
        [Action.waitReturn]) = none :=
  ⟨by decide, rfl, by simp,
    (handleEvent_effect 4 { exampleRenderer.popDebugMarker with newFrame := true }
      (Event.mk (.OTHER 3)) (Event.mk .FRAME)
      [Event.mk (.OTHER 3), Event.mk (.OTHER 5)] (by decide) rfl (by simp)).1,
    (handleEvent_effect 4 exampleRenderer (Event.mk (.OTHER 3)) (Event.mk .FRAME)
      [Event.mk (.OTHER 3), Event.mk (.OTHER 5)] (by decide) rfl (by simp)).2.2.2.2.2.2.1 rfl⟩

/-! ## Gamepad hat switch -/

/-- C30: for a 32-bit POV value other than `0xFFFFFFFF` the hat sector lies in
0..7; for `p = 4500 * k` with `k` in 0..7 it is `k`; for `p < 36000` it is the
index, modulo 8, of the multiple of 4500 nearest to `p` (halves rounded up), so
that `33750 ≤ p < 36000` gives 0; and `0xFFFFFFFF` gives 8. -/
theorem hatSector_rounds (p k : Nat) (hp : p < 4294967296) (hne : p ≠ 0xffffffff)
    (hk : k ≤ 7) :
    GamepadDeviceDI.hatSector p ≤ 7 ∧
    GamepadDeviceDI.hatSector (4500 * k) = k ∧
    (p < 36000 →
      GamepadDeviceDI.hatSector p = ((p + 2250) / 4500) % 8 ∧
      4500 * ((p + 2250) / 4500) ≤ p + 2250 ∧
      p < 4500 * ((p + 2250) / 4500) + 2250) ∧
    (33750 ≤ p → p < 36000 → GamepadDeviceDI.hatSector p = 0) ∧
    GamepadDeviceDI.hatSector 0xffffffff = 8 := by
  refine ⟨?_, ?_, ?_, ?_, by simp [GamepadDeviceDI.hatSector]⟩
  · simp only [GamepadDeviceDI.hatSector]
    rw [if_neg (by simpa using hne)]
    omega
  · interval_cases k <;> decide
  · intro h
    simp only [GamepadDeviceDI.hatSector]
    rw [if_neg (by simpa using hne)]
    omega
  · intro h1 h2
    simp only [GamepadDeviceDI.hatSector]
    rw [if_neg (by simpa using hne)]
    omega

/-- Witness of C30: POV 31500 (up-left) is sector 7. -/
theorem hatSector_rounds_witness :
    (31500 : Nat) < 4294967296 ∧ (31500 : Nat) ≠ 0xffffffff ∧ (3 : Nat) ≤ 7 ∧
    GamepadDeviceDI.hatSector 31500 ≤ 7 ∧
    GamepadDeviceDI.hatSector (4500 * 3) = 3 :=
  ⟨by decide, by decide, by decide,
    (hatSector_rounds 31500 3 (by decide) (by decide) (by decide)).1,
    (hatSector_rounds 31500 3 (by decide) (by decide) (by decide)).2.1⟩

/-- C26, the code at the failing inputs: for the hat positions 3, 5 and 7 the
bitmask has one bit only (`DPAD_RIGHT`, `DPAD_DOWN`, `DPAD_LEFT`), because
`(1 << n) % 4` is 0 for `n ≥ 2`; the positions 0, 1, 2, 4 and 6 and the
centred position give the masks the claim describes. -/
theorem dpadBitmask_values :
    dpadBitmask 3 = 2 ∧ dpadBitmask 5 = 4 ∧ dpadBitmask 7 = 8 ∧
    dpadPressed (dpadBitmask 3) 0x04 = false ∧
    dpadPressed (dpadBitmask 5) 0x08 = false ∧
    dpadPressed (dpadBitmask 7) 0x01 = false ∧
    dpadBitmask 0 = 1 ∧ dpadBitmask 1 = 3 ∧ dpadBitmask 2 = 2 ∧ dpadBitmask 4 = 4 ∧
    dpadBitmask 6 = 8 ∧ dpadBitmask 8 = 0 := by
  decide

/-! ## Log -/

/-- C27, the code at the failing input: for a `Log` with level `INFO` above its
threshold `WARN`, `operator<<(const Matrix4&)` appends the text of the matrix to
the message, whatever the matrix and the message, while the `Vector4` overload
on the same object leaves the message unchanged. -/
theorem log_matrix4_ignores_threshold (to_string : F32 → String) (val : Matrix4)
    (vec : Vector4) (s : String) :
    Log.Level.INFO.toNat > Log.Level.WARN.toNat ∧
    (Log.insertMatrix4 to_string ⟨.INFO, .WARN, s⟩ val).s ≠ s ∧
    s.length < (Log.insertMatrix4 to_string ⟨.INFO, .WARN, s⟩ val).s.length ∧
    (Log.insertVector4 to_string ⟨.INFO, .WARN, s⟩ vec).s = s := by
  have hlen : s.length < (Log.insertMatrix4 to_string ⟨.INFO, .WARN, s⟩ val).s.length := by
    have h1 : ",".length = 1 := by decide
    have h2 : "\n".length = 1 := by decide
    simp only [Log.insertMatrix4, String.length_append, h1, h2]
    omega
  refine ⟨by decide, ?_, hlen, by simp [Log.insertVector4, Log.Level.toNat]⟩
  intro h
  rw [h] at hlen
  exact absurd hlen (lt_irrefl _)

/-! ## Language -/

theorem byteAt_lt (data : Bytes) (i : Nat) : byteAt data i < 256 :=
  (data.getD i 0).isLt

theorem decodeUInt32Big_lt (data : Bytes) (offset : Nat) :
    decodeUInt32Big data offset < 4294967296 := by
  have h0 := byteAt_lt data offset
  have h1 := byteAt_lt data (offset + 1)
  have h2 := byteAt_lt data (offset + 2)
  have h3 := byteAt_lt data (offset + 3)
  unfold decodeUInt32Big
  omega

theorem decodeUInt32Little_lt (data : Bytes) (offset : Nat) :
    decodeUInt32Little data offset < 4294967296 := by
  have h0 := byteAt_lt data offset
  have h1 := byteAt_lt data (offset + 1)
  have h2 := byteAt_lt data (offset + 2)
  have h3 := byteAt_lt data (offset + 3)
  unfold decodeUInt32Little
  omega

theorem readTableLoop_spec (store : TranslationInfo → Nat → Nat → TranslationInfo)
    (decode : Bytes → Nat → Nat) (data : Bytes) (n : Nat) :
    ∀ (rem offset : Nat) (t t1 : Nat → TranslationInfo), rem ≤ n → offset < 4294967296 →
      readTableLoop store decode data n rem offset t = some t1 →
      ∀ j, t1 j =
        if n - rem ≤ j ∧ j < n then
          store (t j) (decode data ((offset + 8 * (j - (n - rem))) % 4294967296))
            (decode data ((offset + 8 * (j - (n - rem)) + 4) % 4294967296))
        else t j := by
  intro rem
  induction rem with
  | zero =>
    intro offset t t1 _ _ h j
    simp only [readTableLoop, Option.some.injEq] at h
    subst h
    have : ¬ (n - 0 ≤ j ∧ j < n) := by omega
    rw [if_neg this]
  | succ rem ih =>
    intro offset t t1 hrem hoff h j
    simp only [readTableLoop] at h
    by_cases h1 : offset + 4 ≤ data.length
    · rw [if_pos h1] at h
      by_cases h2 : (offset + 4) % 4294967296 + 4 ≤ data.length
      · rw [if_pos h2] at h
        have hj := ih _ _ t1 (by omega) (Nat.mod_lt _ (by norm_num)) h j
        rw [hj]
        by_cases c1 : n - rem ≤ j ∧ j < n
        · have c2 : n - (rem + 1) ≤ j ∧ j < n := by omega
          have c3 : j ≠ n - (rem + 1) := by omega
          rw [if_pos c1, if_pos c2, Function.update_noteq c3]
          have e1 : (((offset + 4) % 4294967296 + 4) % 4294967296 + 8 * (j - (n - rem)))
              % 4294967296 = (offset + 8 * (j - (n - (rem + 1)))) % 4294967296 := by omega
          have e2 : (((offset + 4) % 4294967296 + 4) % 4294967296 + 8 * (j - (n - rem)) + 4)
              % 4294967296 = (offset + 8 * (j - (n - (rem + 1))) + 4) % 4294967296 := by
            omega
          rw [e1, e2]
        · rw [if_neg c1]
          by_cases c2 : n - (rem + 1) ≤ j ∧ j < n
          · have c3 : j = n - (rem + 1) := by omega
            rw [if_pos c2, c3, Function.update_same]
            have e1 : (offset + 8 * (n - (rem + 1) - (n - (rem + 1)))) % 4294967296
                = offset := by
              rw [Nat.sub_self, Nat.mul_zero, Nat.add_zero, Nat.mod_eq_of_lt hoff]
            have e2 : (offset + 8 * (n - (rem + 1) - (n - (rem + 1))) + 4) % 4294967296
                = (offset + 4) % 4294967296 := by
              rw [Nat.sub_self, Nat.mul_zero, Nat.add_zero]
            rw [e1, e2]
          · have c3 : j ≠ n - (rem + 1) := by omega
            rw [if_neg c2, Function.update_noteq c3]
      · rw [if_neg h2] at h
        exact absurd h (by simp)
    · rw [if_neg h1] at h
      exact absurd h (by simp)

theorem buildStrings_spec (data : Bytes) (tr : Nat → TranslationInfo) (n : Nat) :
    ∀ (rem : Nat) (strings : Bytes → Option Bytes) (lang : Language), rem ≤ n →
      buildStrings data tr n rem strings = .constructed lang →
      ∀ k : Bytes,
        (∀ j, n - rem ≤ j → j < n →
          bytesAt data (tr j).stringOffset (tr j).stringLength = k →
          (∀ j2, j < j2 → j2 < n →
            bytesAt data (tr j2).stringOffset (tr j2).stringLength ≠ k) →
          lang.strings k =
            some (bytesAt data (tr j).translationOffset (tr j).translationLength)) ∧
        ((∀ j, n - rem ≤ j → j < n →
            bytesAt data (tr j).stringOffset (tr j).stringLength ≠ k) →
          lang.strings k = strings k) := by
  intro rem
  induction rem with
  | zero =>
    intro strings lang _ h k
    simp only [buildStrings, LanguageResult.constructed.injEq] at h
    subst h
    exact ⟨fun j h1 h2 => absurd h1 (by omega), fun _ => rfl⟩
  | succ rem ih =>
    intro strings lang hrem h k
    simp only [buildStrings] at h
    split at h
    · exact absurd h (by simp)
    · split at h
      · split at h
        · obtain ⟨p1, p2⟩ := ih _ lang (by omega) h k
          constructor
          · intro j hj1 hj2 hkey hlast
            by_cases c : j = n - (rem + 1)
            · subst c
              rw [p2 (fun j2 a b => hlast j2 (by omega) b), ← hkey, Function.update_same]
            · exact p1 j (by omega) hj2 hkey hlast
          · intro hno
            rw [p2 (fun j a b => hno j (by omega) b)]
            exact Function.update_noteq (Ne.symm (hno (n - (rem + 1)) le_rfl (by omega))) _ _
        · exact absurd h (by simp)
      · exact absurd h (by simp)

theorem constructDecoded_constructed (W : Nat) (decode : Bytes → Nat → Nat) (data : Bytes)
    (lang : Language) (hlt : ∀ o, decode data o < 4294967296)
    (h : Language.constructDecoded W decode data 4 = .constructed lang) :
    decode data 4 = 0 ∧
    ∃ tr : Nat → TranslationInfo,
      (∀ j, j < decode data 8 → tr j = Spec.entry decode data j) ∧
      buildStrings data tr (decode data 8) (decode data 8) (fun _ => none)
        = .constructed lang := by
  simp only [Language.constructDecoded] at h
  split at h
  · exact absurd h (by simp)
  · rename_i hrev
    split at h
    · exact absurd h (by simp)
    · split at h
      · exact absurd h (by simp)
      · rename_i tr1 h1
        split at h
        · exact absurd h (by simp)
        · split at h
          · exact absurd h (by simp)
          · rename_i tr2 h2
            norm_num at h1 h2 h
            have s1 := readTableLoop_spec _ decode data _ _ _ _ tr1 le_rfl (hlt 12) h1
            have s2 := readTableLoop_spec _ decode data _ _ _ _ tr2 le_rfl (hlt 16) h2
            refine ⟨by simpa using hrev, tr2, ?_, h⟩
            intro j hj
            have e1 : (decode data 12 + 8 * j) % 4294967296
                = (decode data 12 + 4 * (2 * j)) % 4294967296 := by omega
            have e2 : (decode data 12 + 8 * j + 4) % 4294967296
                = (decode data 12 + 4 * (2 * j + 1)) % 4294967296 := by omega
            have e3 : (decode data 16 + 8 * j) % 4294967296
                = (decode data 16 + 4 * (2 * j)) % 4294967296 := by omega
            have e4 : (decode data 16 + 8 * j + 4) % 4294967296
                = (decode data 16 + 4 * (2 * j + 1)) % 4294967296 := by omega
            rw [s2 j, s1 j]
            simp only [Nat.sub_self, Nat.zero_le, true_and, hj, if_true, Nat.sub_zero,
              Spec.entry, Spec.tableWord, Spec.stringsOffset, Spec.translationsOffset,
              e1, e2, e3, e4]

theorem construct_constructed (W : Nat) (hostLittle : Bool) (data : Bytes) (lang : Language)
    (h : Language.construct W hostLittle data = .constructed lang) :
    ∃ decode : Bytes → Nat → Nat,
      ((hostUInt32 hostLittle data 0 = 0xde120495 ∧ decode = decodeUInt32Big) ∨
        (hostUInt32 hostLittle data 0 = 0x950412de ∧ decode = decodeUInt32Little)) ∧
      (∀ o, decode data o < 4294967296) ∧
      Language.constructDecoded W decode data 4 = .constructed lang := by
  simp only [Language.construct] at h
  split at h
  · exact absurd h (by simp)
  · split at h
    · rename_i hm
      exact ⟨decodeUInt32Big, Or.inl ⟨hm, rfl⟩, decodeUInt32Big_lt data, h⟩
    · split at h
      · rename_i hm
        exact ⟨decodeUInt32Little, Or.inr ⟨hm, rfl⟩, decodeUInt32Little_lt data, h⟩
      · exact absurd h (by simp)

/-- C23: for a byte vector from which the constructor builds an object, the
header and table words are decoded big-endian when the first four bytes read in
host order are 0xde120495 and little-endian when they are 0x950412de, the
revision is 0, and for entries `i` and `j` below the count, `j` being the
largest index whose original string equals that of `i`, `getString` of the
original string of `i` returns the translation of entry `j`. -/
theorem catalogue_lookup (W : Nat) (hostLittle : Bool) (data : Bytes) (lang : Language)
    (h : Language.construct W hostLittle data = .constructed lang) :
    ∃ decode : Bytes → Nat → Nat,
      ((hostUInt32 hostLittle data 0 = 0xde120495 ∧ decode = decodeUInt32Big) ∨
        (hostUInt32 hostLittle data 0 = 0x950412de ∧ decode = decodeUInt32Little)) ∧
      decode data 4 = 0 ∧
      ∀ i j, i < Spec.stringCount decode data → j < Spec.stringCount decode data →
        Spec.key decode data j = Spec.key decode data i →
        (∀ j2, j < j2 → j2 < Spec.stringCount decode data →
          Spec.key decode data j2 ≠ Spec.key decode data i) →
        (lang.getString (Spec.key decode data i)).1 = Spec.val decode data j := by
  obtain ⟨decode, hm, hlt, hd⟩ := construct_constructed W hostLittle data lang h
  obtain ⟨hrev, tr, htr, hb⟩ := constructDecoded_constructed W decode data lang hlt hd
  refine ⟨decode, hm, hrev, ?_⟩
  intro i j hi hj hkey hlast
  have hspec := (buildStrings_spec data tr (decode data 8) (decode data 8) _ lang le_rfl hb
    (Spec.key decode data i)).1 j (by omega) hj
    (by rw [htr j hj]; exact hkey)
    (fun j2 a b => by rw [htr j2 b]; exact hlast j2 a b)
  simp only [Language.getString, hspec, htr j hj]
  rfl

/-- Witness of C23: the example catalogue, whose two entries have the same
original string. -/
theorem catalogue_lookup_witness :
    Language.construct 64 true exampleCatalogue =
      .constructed (Language.construct 64 true exampleCatalogue).language ∧
    ∃ decode : Bytes → Nat → Nat,
      ((hostUInt32 true exampleCatalogue 0 = 0xde120495 ∧ decode = decodeUInt32Big) ∨
        (hostUInt32 true exampleCatalogue 0 = 0x950412de ∧ decode = decodeUInt32Little)) ∧
      decode exampleCatalogue 4 = 0 ∧
      ∀ i j, i < Spec.stringCount decode exampleCatalogue →
        j < Spec.stringCount decode exampleCatalogue →
        Spec.key decode exampleCatalogue j = Spec.key decode exampleCatalogue i →
        (∀ j2, j < j2 → j2 < Spec.stringCount decode exampleCatalogue →
          Spec.key decode exampleCatalogue j2 ≠ Spec.key decode exampleCatalogue i) →
        ((Language.construct 64 true exampleCatalogue).language.getString
          (Spec.key decode exampleCatalogue i)).1 = Spec.val decode exampleCatalogue j :=
  ⟨rfl, catalogue_lookup 64 true exampleCatalogue
    (Language.construct 64 true exampleCatalogue).language rfl⟩

/-- C25: `getString s` returns the translation stored under `s` when `s` is a
key of the table and `s` itself otherwise; it always returns and leaves the
object as it is; for an object built from a catalogue whose count field is 0
it returns its argument. -/
theorem getString_lookup (l : Language) (s v : Bytes) (W : Nat) (hostLittle : Bool)
    (data : Bytes) :
    (l.strings s = some v → l.getString s = (v, l)) ∧
    (l.strings s = none → l.getString s = (s, l)) ∧
    (l.getString s).2 = l ∧
    (byteAt data 8 = 0 → byteAt data 9 = 0 → byteAt data 10 = 0 → byteAt data 11 = 0 →
      ∀ lang, Language.construct W hostLittle data = .constructed lang →
        (lang.getString s).1 = s) := by
  refine ⟨fun h => by simp [Language.getString, h], fun h => by simp [Language.getString, h],
    ?_, ?_⟩
  · unfold Language.getString
    cases l.strings s <;> rfl
  · intro b0 b1 b2 b3 lang h
    obtain ⟨decode, hm, hlt, hd⟩ := construct_constructed W hostLittle data lang h
    obtain ⟨_, tr, _, hb⟩ := constructDecoded_constructed W decode data lang hlt hd
    have hz : decode data 8 = 0 := by
      rcases hm with ⟨_, hm⟩ | ⟨_, hm⟩ <;> subst hm <;>
        simp [decodeUInt32Big, decodeUInt32Little, b0, b1, b2, b3]
    rw [hz] at hb
    simp only [buildStrings, LanguageResult.constructed.injEq] at hb
    subst hb
    rfl

/-- C22, the code at the failing input: the 36-byte catalogue has one entry
whose original string has offset 0xFFFFFFFF and length 2; the sum taken in
`uint32_t` is 1, which is not above the size 36, so the constructor does not
throw, on 64-bit and on 32-bit `size_t` alike, and goes on to read the two
bytes at offset 0xFFFFFFFF, outside the vector. -/
theorem language_accepts_wrapping_entry :
    overflowingCatalogue.length = 36 ∧
    Spec.stringCount decodeUInt32Little overflowingCatalogue = 1 ∧
    (Spec.entry decodeUInt32Little overflowingCatalogue 0).stringOffset = 0xffffffff ∧
    (Spec.entry decodeUInt32Little overflowingCatalogue 0).stringLength = 2 ∧
    (0xffffffff + 2) % 4294967296 = 1 ∧
    ¬ (0xffffffff + 2 ≤ overflowingCatalogue.length) ∧
    (Language.construct 64 true overflowingCatalogue).isThrow = false ∧
    (Language.construct 64 true overflowingCatalogue).isOutOfBounds = true ∧
    (Language.construct 32 true overflowingCatalogue).isThrow = false ∧
    (Language.construct 32 true overflowingCatalogue).isOutOfBounds = true := by
  decide

/-- C24, the code at the failing input: in the 28-byte catalogue the table of
original strings (one entry of 8 bytes) is at offset 0xFFFFFFF8 and so extends
past the end of the data; with a 32-bit `size_t` the sum
`offset + 2 * sizeof(uint32_t) * stringCount` is 0, the constructor does not
throw and reads the table outside the vector; with a 64-bit `size_t` it
throws. -/
theorem language_table_check_wraps :
    wrappingTableCatalogue.length = 28 ∧
    Spec.stringCount decodeUInt32Little wrappingTableCatalogue = 1 ∧
    Spec.stringsOffset decodeUInt32Little wrappingTableCatalogue = 0xfffffff8 ∧
    ¬ (0xfffffff8 + 8 * 1 ≤ wrappingTableCatalogue.length) ∧
    (0xfffffff8 + 2 * 4 * 1) % 2 ^ 32 = 0 ∧
    (Language.construct 32 true wrappingTableCatalogue).isThrow = false ∧
    (Language.construct 32 true wrappingTableCatalogue).isOutOfBounds = true ∧
    (Language.construct 64 true wrappingTableCatalogue).isThrow = true := by
  decide

/-! ## Mouse and gamepad axes -/

theorem readTableLoop_isSome (store : TranslationInfo → Nat → Nat → TranslationInfo)
    (decode : Bytes → Nat → Nat) (data : Bytes) (n : Nat) :
    ∀ (rem offset : Nat) (t : Nat → TranslationInfo), offset + 8 * rem ≤ data.length →
      ∃ t1, readTableLoop store decode data n rem offset t = some t1 := by
  intro rem
  induction rem with
  | zero => intro offset t _; exact ⟨t, rfl⟩
  | succ rem ih =>
    intro offset t h
    have h1 : offset + 4 ≤ data.length := by omega
    have h2 : (offset + 4) % 4294967296 + 4 ≤ data.length := by omega
    have h3 : ((offset + 4) % 4294967296 + 4) % 4294967296 + 8 * rem ≤ data.length := by
      omega
    simp only [readTableLoop, if_pos h1, if_pos h2]
    exact ih _ _ h3

/-- After the magic number: a revision other than 0 throws, and, with a 64-bit
`size_t`, so does a table of original strings or of translations that extends
past the end of the data. -/
theorem constructDecoded_rejects (W : Nat) (decode : Bytes → Nat → Nat) (data : Bytes)
    (hlt : ∀ o, decode data o < 4294967296) :
    (decode data 4 ≠ 0 →
      Language.constructDecoded W decode data 4 =
        .threw ("Unsupported revision " ++ toString (decode data 4))) ∧
    (decode data 4 = 0 → data.length < decode data 12 + 8 * decode data 8 →
      Language.constructDecoded 64 decode data 4 = .threw "Not enough data") ∧
    (decode data 4 = 0 → decode data 12 + 8 * decode data 8 ≤ data.length →
      data.length < decode data 16 + 8 * decode data 8 →
      Language.constructDecoded 64 decode data 4 = .threw "Not enough data") := by
  have h8 := hlt 8
  have h12 := hlt 12
  have h16 := hlt 16
  have m1 : (decode data 12 + 8 * decode data 8) % 18446744073709551616
      = decode data 12 + 8 * decode data 8 := Nat.mod_eq_of_lt (by omega)
  have m2 : (decode data 16 + 8 * decode data 8) % 18446744073709551616
      = decode data 16 + 8 * decode data 8 := Nat.mod_eq_of_lt (by omega)
  refine ⟨?_, ?_, ?_⟩
  · intro h
    simp [Language.constructDecoded, h]
  · intro h hs
    simp only [Language.constructDecoded]
    norm_num [h, m1, hs]
  · intro h hs ht
    obtain ⟨t1, ht1⟩ := readTableLoop_isSome
      (fun t first second => { t with stringLength := first, stringOffset := second })
      decode data (decode data 8) (decode data 8) (decode data 12)
      (fun _ => ⟨0, 0, 0, 0⟩) hs
    simp only [Language.constructDecoded]
    norm_num [h, m1, m2, not_lt.mpr hs, ht, readStrings, ht1]

/-- The first checks of the constructor, in their order: fewer than 20 bytes
throws before the magic number is read; a magic number that is neither
0xde120495 nor 0x950412de throws before the revision is read; otherwise the
constructor goes on with the decoder of the magic number. -/
theorem construct_first_checks (W : Nat) (hostLittle : Bool) (data : Bytes) :
    (data.length < 20 → Language.construct W hostLittle data = .threw "Not enough data") ∧
    (20 ≤ data.length → hostUInt32 hostLittle data 0 ≠ 0xde120495 →
      hostUInt32 hostLittle data 0 ≠ 0x950412de →
      Language.construct W hostLittle data =
        .threw ("Wrong magic " ++ toString (hostUInt32 hostLittle data 0))) ∧
    (20 ≤ data.length → hostUInt32 hostLittle data 0 = 0xde120495 →
      Language.construct W hostLittle data =
        Language.constructDecoded W decodeUInt32Big data 4) ∧
    (20 ≤ data.length → hostUInt32 hostLittle data 0 = 0x950412de →
      Language.construct W hostLittle data =
        Language.constructDecoded W decodeUInt32Little data 4) := by
  refine ⟨?_, ?_, ?_, ?_⟩
  · intro h
    simp [Language.construct, h]
  · intro h h1 h2
    have h0 : ¬ data.length < 20 := by omega
    simp [Language.construct, h0, h1, h2]
  · intro h h1
    have h0 : ¬ data.length < 20 := by omega
    simp [Language.construct, h0, h1]
  · intro h h1
    have h0 : ¬ data.length < 20 := by omega
    simp [Language.construct, h0, h1]

end Ouzel
